import Mathlib

/-!
# Column-type resolution of the Go code generator

A shallow embedding of `internal/codegen/golang/postgresql_type.go`
(`parseIdentifierString`, `postgresType`) and the properties of it that the
specification states.

Go strings are modelled by `String`, Go slices by `List`, a Go
`(value, error)` result by `Except String value` (the error is its message).
-/

namespace Sqlc

/-! ## Data model -/

/-- The protobuf message `plugin.Identifier`: an unset string field is `""`. -/
structure Identifier where
  Catalog : String := ""
  Schema : String := ""
  Name : String := ""
  deriving DecidableEq, Repr

/-- The message `plugin.Enum`, reduced to the field the resolver reads. -/
structure Enum where
  Name : String
  deriving DecidableEq, Repr

/-- The message `plugin.CompositeType`, reduced to the field the resolver reads. -/
structure CompositeType where
  Name : String
  deriving DecidableEq, Repr

/-- The message `plugin.Schema`, reduced to the fields the resolver reads. -/
structure Schema where
  Name : String
  Enums : List Enum := []
  CompositeTypes : List CompositeType := []
  deriving DecidableEq, Repr

/-- The message `plugin.Catalog`, reduced to the fields the resolver reads. -/
structure Catalog where
  DefaultSchema : String
  Schemas : List Schema := []
  deriving DecidableEq, Repr

/-- The message `plugin.CodeGenRequest`; the settings message is kept abstract
(type `σ`), since the resolver only hands it to `parseDriver` and `StructName`. -/
structure CodeGenRequest (σ : Type) where
  Settings : σ
  Catalog : Catalog

/-- Modelled from the spec: `sdk.DataType(col.Type)` is not among the sources;
the spec's column descriptor is `{declared_type, not_null, is_array}`, so the
column carries the declared type string that `sdk.DataType` yields. -/
structure Column where
  DataType : String
  NotNull : Bool
  IsArray : Bool
  deriving DecidableEq, Repr

/-- Modelled from the spec: the type `SQLDriver` is declared outside the
sources; a driver value is modelled by the name of its profile. -/
abbrev SQLDriver := String

/-- Modelled from the spec: the constant is declared outside the sources; it
names the extended driver profile `pgx/v4`. -/
def SQLDriverPGXV4 : SQLDriver := "pgx/v4"

/-- Modelled from the spec: the constant is declared outside the sources; it
names the standard driver profile `lib/pq`. -/
def SQLDriverLibPQ : SQLDriver := "lib/pq"

/-- What `postgresType` uses and the sources do not define: `parseDriver`,
`StructName` and the flag `debug.Active`. They are parameters of the model. -/
structure Env (σ : Type) where
  parseDriver : σ → SQLDriver
  StructName : String → σ → String
  debugActive : Bool

/-! ## The identifier parser -/

/-- Worker of `stringsSplit`: `cur` holds the characters of the segment being
read, most recent first. -/
def splitAux (sep : Char) : List Char → List Char → List String
  | cur, [] => [String.mk cur.reverse]
  | cur, c :: cs =>
    if c = sep then String.mk cur.reverse :: splitAux sep [] cs
    else splitAux sep (c :: cur) cs

/-- Go's `strings.Split(s, sep)` for a one-character separator: the pieces of
`s` between the occurrences of `sep`; always at least one piece. -/
def stringsSplit (s : String) (sep : Char) : List String :=
  splitAux sep [] s.data

/-- The message of `fmt.Errorf("invalid name: %s", name)`. -/
def invalidName (name : String) : String := "invalid name: " ++ name

/-- The function `parseIdentifierString`: a switch on `len(parts)`. -/
def parseIdentifierString (name : String) : Except String Identifier :=
  let parts := stringsSplit name '.'
  match parts.length with
  | 1 => .ok { Name := parts.getD 0 "" }
  | 2 => .ok { Schema := parts.getD 0 "", Name := parts.getD 1 "" }
  | 3 => .ok { Catalog := parts.getD 0 "", Schema := parts.getD 1 "", Name := parts.getD 2 "" }
  | _ => .error (invalidName name)

/-- The reference definition of the parser, following the specification:
one segment is a name, two are schema and name, three are catalog, schema and
name, and any other number of segments is an invalid identifier carrying the
offending string. -/
def parseIdentifierRef (name : String) : Except String Identifier :=
  match stringsSplit name '.' with
  | [seg0] => .ok { Catalog := "", Schema := "", Name := seg0 }
  | [seg0, seg1] => .ok { Catalog := "", Schema := seg0, Name := seg1 }
  | [seg0, seg1, seg2] => .ok { Catalog := seg0, Schema := seg1, Name := seg2 }
  | _ => .error ("invalid name: " ++ name)

/-! ## The type resolver -/

/-- The loop `for _, enum := range schema.Enums` of `postgresType`: `some r`
when the loop body returns `r`, `none` when the loop runs to its end. -/
def scanEnums {σ : Type} (env : Env σ) (req : CodeGenRequest σ) (rel : Identifier)
    (schema : Schema) : List Enum → Option String
  | [] => none
  | enum :: rest =>
    if rel.Name = enum.Name ∧ rel.Schema = schema.Name then
      if schema.Name = req.Catalog.DefaultSchema then
        some (env.StructName enum.Name req.Settings)
      else
        some (env.StructName (schema.Name ++ "_" ++ enum.Name) req.Settings)
    else scanEnums env req rel schema rest

/-- The loop `for _, ct := range schema.CompositeTypes` of `postgresType`. -/
def scanCompositeTypes (notNull : Bool) (rel : Identifier) (schema : Schema) :
    List CompositeType → Option String
  | [] => none
  | ct :: rest =>
    if rel.Name = ct.Name ∧ rel.Schema = schema.Name then
      if notNull then some "string" else some "sql.NullString"
    else scanCompositeTypes notNull rel schema rest

/-- The loop `for _, schema := range req.Catalog.Schemas` of `postgresType`. -/
def scanSchemas {σ : Type} (env : Env σ) (req : CodeGenRequest σ) (notNull : Bool)
    (rel : Identifier) : List Schema → Option String
  | [] => none
  | schema :: rest =>
    if schema.Name = "pg_catalog" then scanSchemas env req notNull rel rest
    else
      match scanEnums env req rel schema schema.Enums with
      | some r => some r
      | none =>
        match scanCompositeTypes notNull rel schema schema.CompositeTypes with
        | some r => some r
        | none => scanSchemas env req notNull rel rest

/-- The line `log.Printf("unknown PostgreSQL type: %s\n", columnType)` writes. -/
def unknownTypeLog (columnType : String) : String :=
  "unknown PostgreSQL type: " ++ columnType ++ "\n"

/-- The `default:` case of the switch of `postgresType`: the catalog fallback.
The result is the returned string and the lines written to the log. -/
def postgresTypeDefault {σ : Type} (env : Env σ) (req : CodeGenRequest σ)
    (columnType : String) (notNull : Bool) : String × List String :=
  match parseIdentifierString columnType with
  | .error _ => ("interface{}", [])
  | .ok rel0 =>
    let rel : Identifier :=
      if rel0.Schema = "" then { rel0 with Schema := req.Catalog.DefaultSchema } else rel0
    match scanSchemas env req notNull rel req.Catalog.Schemas with
    | some r => (r, [])
    | none =>
      ("interface{}", if env.debugActive then [unknownTypeLog columnType] else [])

/-- The function `postgresType`. The result is the returned string and the
lines written to the log (the log is a side channel of the Go function). -/
def postgresType {σ : Type} (env : Env σ) (req : CodeGenRequest σ) (col : Column) :
    String × List String :=
  let columnType := col.DataType
  let notNull := col.NotNull || col.IsArray
  let driver := env.parseDriver req.Settings
  if columnType = "serial" ∨ columnType = "serial4" ∨ columnType = "pg_catalog.serial4" then
    ("int32", [])
  else if columnType = "bigserial" ∨ columnType = "serial8"
      ∨ columnType = "pg_catalog.serial8" then
    ("int64", [])
  else if columnType = "smallserial" ∨ columnType = "serial2"
      ∨ columnType = "pg_catalog.serial2" then
    ("int16", [])
  else if columnType = "integer" ∨ columnType = "int" ∨ columnType = "int4"
      ∨ columnType = "pg_catalog.int4" then
    ("int32", [])
  else if columnType = "bigint" ∨ columnType = "int8" ∨ columnType = "pg_catalog.int8" then
    ("int64", [])
  else if columnType = "smallint" ∨ columnType = "int2" ∨ columnType = "pg_catalog.int2" then
    ("int16", [])
  else if columnType = "float" ∨ columnType = "double precision" ∨ columnType = "float8"
      ∨ columnType = "pg_catalog.float8" then
    ("float64", [])
  else if columnType = "real" ∨ columnType = "float4" ∨ columnType = "pg_catalog.float4" then
    ("float32", [])
  else if columnType = "numeric" ∨ columnType = "pg_catalog.numeric"
      ∨ columnType = "money" then
    if driver = SQLDriverPGXV4 then ("pgtype.Numeric", [])
    else ("string", [])
  else if columnType = "boolean" ∨ columnType = "bool" ∨ columnType = "pg_catalog.bool" then
    ("bool", [])
  else if columnType = "json" then
    if driver = SQLDriverPGXV4 then ("pgtype.JSON", [])
    else if driver = SQLDriverLibPQ then
      if notNull then ("json.RawMessage", []) else ("pqtype.NullRawMessage", [])
    else ("interface{}", [])
  else if columnType = "jsonb" then
    if driver = SQLDriverPGXV4 then ("pgtype.JSONB", [])
    else if driver = SQLDriverLibPQ then
      if notNull then ("json.RawMessage", []) else ("pqtype.NullRawMessage", [])
    else ("interface{}", [])
  else if columnType = "bytea" ∨ columnType = "blob" ∨ columnType = "pg_catalog.bytea" then
    ("[]byte", [])
  else if columnType = "date" then
    ("time.Time", [])
  else if columnType = "pg_catalog.time" ∨ columnType = "pg_catalog.timetz" then
    ("time.Time", [])
  else if columnType = "pg_catalog.timestamp" ∨ columnType = "pg_catalog.timestamptz"
      ∨ columnType = "timestamptz" then
    ("time.Time", [])
  else if columnType = "text" ∨ columnType = "pg_catalog.varchar"
      ∨ columnType = "pg_catalog.bpchar" ∨ columnType = "string" then
    ("string", [])
  else if columnType = "uuid" then
    ("uuid.UUID", [])
  else if columnType = "inet" then
    if driver = SQLDriverPGXV4 then ("pgtype.Inet", [])
    else if driver = SQLDriverLibPQ then ("pqtype.Inet", [])
    else ("interface{}", [])
  else if columnType = "cidr" then
    if driver = SQLDriverPGXV4 then ("pgtype.CIDR", [])
    else if driver = SQLDriverLibPQ then ("pqtype.CIDR", [])
    else ("interface{}", [])
  else if columnType = "macaddr" ∨ columnType = "macaddr8" then
    if driver = SQLDriverPGXV4 then ("pgtype.Macaddr", [])
    else if driver = SQLDriverLibPQ then ("pqtype.Macaddr", [])
    else ("interface{}", [])
  else if columnType = "ltree" ∨ columnType = "lquery" ∨ columnType = "ltxtquery" then
    ("string", [])
  else if columnType = "interval" ∨ columnType = "pg_catalog.interval" then
    ("int64", [])
  else if columnType = "daterange" then
    if driver = SQLDriverPGXV4 then ("pgtype.Daterange", []) else ("interface{}", [])
  else if columnType = "tsrange" then
    if driver = SQLDriverPGXV4 then ("pgtype.Tsrange", []) else ("interface{}", [])
  else if columnType = "tstzrange" then
    if driver = SQLDriverPGXV4 then ("pgtype.Tstzrange", []) else ("interface{}", [])
  else if columnType = "numrange" then
    if driver = SQLDriverPGXV4 then ("pgtype.Numrange", []) else ("interface{}", [])
  else if columnType = "int4range" then
    if driver = SQLDriverPGXV4 then ("pgtype.Int4range", []) else ("interface{}", [])
  else if columnType = "int8range" then
    if driver = SQLDriverPGXV4 then ("pgtype.Int8range", []) else ("interface{}", [])
  else if columnType = "hstore" then
    if driver = SQLDriverPGXV4 then ("pgtype.Hstore", []) else ("interface{}", [])
  else if columnType = "void" then
    ("interface{}", [])
  else if columnType = "any" then
    ("interface{}", [])
  else
    postgresTypeDefault env req columnType notNull

/-- Every case label of the switch of `postgresType`, in source order. -/
def builtinTypes : List String :=
  ["serial", "serial4", "pg_catalog.serial4", "bigserial", "serial8", "pg_catalog.serial8",
   "smallserial", "serial2", "pg_catalog.serial2", "integer", "int", "int4", "pg_catalog.int4",
   "bigint", "int8", "pg_catalog.int8", "smallint", "int2", "pg_catalog.int2",
   "float", "double precision", "float8", "pg_catalog.float8", "real", "float4",
   "pg_catalog.float4", "numeric", "pg_catalog.numeric", "money", "boolean", "bool",
   "pg_catalog.bool", "json", "jsonb", "bytea", "blob", "pg_catalog.bytea", "date",
   "pg_catalog.time", "pg_catalog.timetz", "pg_catalog.timestamp", "pg_catalog.timestamptz",
   "timestamptz", "text", "pg_catalog.varchar", "pg_catalog.bpchar", "string", "uuid",
   "inet", "cidr", "macaddr", "macaddr8", "ltree", "lquery", "ltxtquery", "interval",
   "pg_catalog.interval", "daterange", "tsrange", "tstzrange", "numrange", "int4range",
   "int8range", "hstore", "void", "any"]

/-! ## Specification tables and example inputs -/

/-- The derived name of an enum `name` found in the schema `schemaName`: bare
in the default schema, prefixed with the schema name elsewhere. -/
def enumTypeName {σ : Type} (env : Env σ) (req : CodeGenRequest σ)
    (schemaName name : String) : String :=
  if schemaName = req.Catalog.DefaultSchema then env.StructName name req.Settings
  else env.StructName (schemaName ++ "_" ++ name) req.Settings

/-- The profile-independent rows of the documented table: declared type and
the identifier documented for it. -/
def documentedBuiltins : List (String × String) :=
  [("serial", "int32"), ("serial4", "int32"), ("pg_catalog.serial4", "int32"),
   ("integer", "int32"), ("int", "int32"), ("int4", "int32"), ("pg_catalog.int4", "int32"),
   ("bigserial", "int64"), ("serial8", "int64"), ("pg_catalog.serial8", "int64"),
   ("bigint", "int64"), ("int8", "int64"), ("pg_catalog.int8", "int64"),
   ("smallserial", "int16"), ("serial2", "int16"), ("pg_catalog.serial2", "int16"),
   ("smallint", "int16"), ("int2", "int16"), ("pg_catalog.int2", "int16"),
   ("float", "float64"), ("double precision", "float64"), ("float8", "float64"),
   ("pg_catalog.float8", "float64"),
   ("real", "float32"), ("float4", "float32"), ("pg_catalog.float4", "float32"),
   ("boolean", "bool"), ("bool", "bool"), ("pg_catalog.bool", "bool"),
   ("bytea", "[]byte"), ("blob", "[]byte"), ("pg_catalog.bytea", "[]byte"),
   ("text", "string"), ("pg_catalog.varchar", "string"), ("pg_catalog.bpchar", "string"),
   ("string", "string"),
   ("uuid", "uuid.UUID"),
   ("ltree", "string"), ("lquery", "string"), ("ltxtquery", "string"),
   ("interval", "int64"), ("pg_catalog.interval", "int64"),
   ("void", "interface{}"), ("any", "interface{}")]

/-- The range and key-value-map rows of the documented table: declared type
and the identifier of the `pgx/v4` profile. -/
def documentedRanges : List (String × String) :=
  [("daterange", "pgtype.Daterange"), ("tsrange", "pgtype.Tsrange"),
   ("tstzrange", "pgtype.Tstzrange"), ("numrange", "pgtype.Numrange"),
   ("int4range", "pgtype.Int4range"), ("int8range", "pgtype.Int8range"),
   ("hstore", "pgtype.Hstore")]

/-- A settings-free environment with a fixed driver, struct names left as they
are and diagnostics off: the concrete environment of the examples. -/
def exampleEnv (driver : SQLDriver) : Env Unit :=
  { parseDriver := fun _ => driver, StructName := fun s _ => s, debugActive := false }

/-- A request over a catalog with default schema `public` and no schemas. -/
def emptyReq : CodeGenRequest Unit :=
  { Settings := (), Catalog := { DefaultSchema := "public", Schemas := [] } }

/-- A catalog with default schema `public`: the enum `status` is in `public`
and in `billing`, and `billing` also holds the composite type `address`. -/
def exampleReq : CodeGenRequest Unit :=
  { Settings := (),
    Catalog :=
      { DefaultSchema := "public",
        Schemas := [{ Name := "public", Enums := [⟨"status"⟩] },
                    { Name := "billing", Enums := [⟨"status"⟩],
                      CompositeTypes := [⟨"address"⟩] }] } }

/-- The schema an identifier is looked up in: the catalog's default schema
when the parsed schema is unset, as `postgresType` sets `rel.Schema`. -/
def effectiveSchema {σ : Type} (req : CodeGenRequest σ) (rel : Identifier) : String :=
  if rel.Schema = "" then req.Catalog.DefaultSchema else rel.Schema

/-- The request over the same settings and default schema with the schema list
`schemas`. -/
def withSchemas {σ : Type} (req : CodeGenRequest σ) (schemas : List Schema) :
    CodeGenRequest σ :=
  { req with Catalog := { req.Catalog with Schemas := schemas } }

/-- The request with every schema named `pg_catalog` removed from the catalog. -/
def removePgCatalog {σ : Type} (req : CodeGenRequest σ) : CodeGenRequest σ :=
  withSchemas req (req.Catalog.Schemas.filter fun s => !decide (s.Name = "pg_catalog"))

/-- Modelled from the spec: `parseDriver` is not among the sources. The spec
has the driver profile selector supplied by configuration, one of a small
closed set of named profiles, an unrecognized profile being treated as the
standard one: the selector naming `pgx/v4` selects the extended profile, every
other selector the standard profile `lib/pq`. -/
def parseDriver (selector : String) : SQLDriver :=
  if selector = SQLDriverPGXV4 then SQLDriverPGXV4 else SQLDriverLibPQ

/-- The environment whose driver is `parseDriver` of the profile selector that
`selector` reads from the settings. -/
def profileEnv {σ : Type} (selector : σ → String) (structName : String → σ → String)
    (debugActive : Bool) : Env σ :=
  { parseDriver := fun settings => parseDriver (selector settings),
    StructName := structName, debugActive := debugActive }

/-- A catalog whose only composite type `address` lives in a schema named
`pg_catalog`. -/
def pgCatalogReq : CodeGenRequest Unit :=
  { Settings := (),
    Catalog :=
      { DefaultSchema := "public",
        Schemas := [{ Name := "pg_catalog", Enums := [⟨"mood"⟩],
                      CompositeTypes := [⟨"address"⟩] }] } }

/-- The type keywords `X` that are a case label of the switch both bare and as
`pg_catalog.X`. -/
def aliasedKeywords : List String :=
  ["serial4", "serial8", "serial2", "int4", "int8", "int2", "float8", "float4", "numeric",
   "bool", "bytea", "timestamptz", "interval"]

/-- The type keywords `X` for which `pg_catalog.X` is a case label of the
switch and the bare `X` is not. -/
def qualifiedOnlyKeywords : List String :=
  ["time", "timetz", "timestamp", "varchar", "bpchar"]

/-- A catalog with two schemas named `billing`: the first holds a composite
type `status`, the second an enum `status`. -/
def firstMatchReq : CodeGenRequest Unit :=
  { Settings := (),
    Catalog :=
      { DefaultSchema := "public",
        Schemas := [{ Name := "billing", CompositeTypes := [⟨"status"⟩] },
                    { Name := "billing", Enums := [⟨"status"⟩] }] } }

/-- The identifier the catalog fallback looks up: the parsed identifier with
the effective schema. -/
def lookupRel {σ : Type} (req : CodeGenRequest σ) (rel : Identifier) : Identifier :=
  { Catalog := rel.Catalog, Schema := effectiveSchema req rel, Name := rel.Name }

/-! ## AST node boxing (`internal/kotlin/poet/poet.go`) -/

namespace ast

/-- The oneof interface `isNode_Node` of the message `ast.Node`, with the three
wrappers `poet.Node` builds. The pointer types `*ast.Class`,
`*ast.NullableType` and `*ast.UserType` are declared outside the sources and
are the parameters `C`, `N` and `U`. -/
inductive isNode_Node (C N U : Type) where
  | Node_Class (Class : C)
  | Node_NullableType (NullableType : N)
  | Node_UserType (UserType : U)

set_option linter.dupNamespace false in
/-- The message `ast.Node`: the envelope around the oneof field `Node`. -/
structure Node (C N U : Type) where
  Node : isNode_Node C N U

end ast

namespace poet

/-- A value of the interface `proto`, by its dynamic type: one of the three
pointer types the type switch names, or anything else (`O`: another message
type, or the nil interface). -/
inductive proto (C N U O : Type) where
  | Class (n : C)
  | NullableType (n : N)
  | UserType (n : U)
  | other (n : O)

/-- The function `poet.Node`: a type switch whose `default` case panics with
the value; the panic is the `error` of the result. -/
def Node {C N U O : Type} (node : proto C N U O) : Except (proto C N U O) (ast.Node C N U) :=
  match node with
  | .Class n => .ok { Node := .Node_Class n }
  | .NullableType n => .ok { Node := .Node_NullableType n }
  | .UserType n => .ok { Node := .Node_UserType n }
  | n => .error n

end poet

/-! ## The identifier parser: properties -/

/-- The split always yields at least one segment. -/
theorem splitAux_ne_nil (sep : Char) (cur cs : List Char) : splitAux sep cur cs ≠ [] := by
  induction cs generalizing cur with
  | nil => simp [splitAux]
  | cons c cs ih =>
    unfold splitAux
    split
    · simp
    · exact ih _

/-- Joining the segments with the separator gives back what was split. -/
theorem splitAux_intercalate (sep : Char) (cur cs : List Char) :
    List.intercalate [sep] ((splitAux sep cur cs).map String.data) = cur.reverse ++ cs := by
  induction cs generalizing cur with
  | nil => simp [splitAux, List.intercalate]
  | cons c cs ih =>
    unfold splitAux
    split
    · rename_i hc
      have h := ih []
      obtain ⟨p, ps, hp⟩ := List.exists_cons_of_ne_nil (splitAux_ne_nil sep [] cs)
      rw [hp] at h ⊢
      simp only [List.intercalate, List.map_cons, List.intersperse, List.reverse_nil,
        List.nil_append] at h ⊢
      simp [List.intersperse, h, hc]
    · rw [ih]; simp

/-- No segment holds the separator. -/
theorem splitAux_no_sep (sep : Char) (cur cs : List Char) (hcur : sep ∉ cur) :
    ∀ p ∈ splitAux sep cur cs, sep ∉ p.data := by
  induction cs generalizing cur with
  | nil => simpa [splitAux] using hcur
  | cons c cs ih =>
    unfold splitAux
    split
    · intro p hp
      rcases List.mem_cons.1 hp with h | h
      · subst h; simpa using hcur
      · exact ih [] (by simp) p h
    · rename_i hc
      exact ih (c :: cur) (by simp [hcur, Ne.symm hc])

/-- The model of `strings.Split` is the split of a string at its separators:
the segments are free of the separator and, joined by it, give the string. -/
theorem stringsSplit_spec (s : String) (sep : Char) :
    List.intercalate [sep] ((stringsSplit s sep).map String.data) = s.data
    ∧ ∀ p ∈ stringsSplit s sep, sep ∉ p.data :=
  ⟨by simpa using splitAux_intercalate sep [] s.data,
   splitAux_no_sep sep [] s.data (by simp)⟩

/-- C1: `parseIdentifierString` equals its reference definition on every
string: one segment gives the name, two give schema and name, three give
catalog, schema and name (so `a.b.c` parses to catalog `a`, schema `b`, name
`c`), and every other segment count (as for `a.b.c.d`) gives an error, no
identifier, whose message is `invalid name: ` followed by the input. -/
theorem parseIdentifierString_eq_ref :
    (∀ name, parseIdentifierString name = parseIdentifierRef name)
    ∧ (∀ name seg0, stringsSplit name '.' = [seg0] →
        parseIdentifierString name = .ok { Catalog := "", Schema := "", Name := seg0 })
    ∧ (∀ name seg0 seg1, stringsSplit name '.' = [seg0, seg1] →
        parseIdentifierString name = .ok { Catalog := "", Schema := seg0, Name := seg1 })
    ∧ (∀ name seg0 seg1 seg2, stringsSplit name '.' = [seg0, seg1, seg2] →
        parseIdentifierString name = .ok { Catalog := seg0, Schema := seg1, Name := seg2 })
    ∧ (∀ name, (stringsSplit name '.').length ≠ 1 → (stringsSplit name '.').length ≠ 2 →
        (stringsSplit name '.').length ≠ 3 →
        parseIdentifierString name = .error ("invalid name: " ++ name))
    ∧ parseIdentifierString "a.b.c" = .ok { Catalog := "a", Schema := "b", Name := "c" }
    ∧ parseIdentifierString "a.b.c.d" = .error "invalid name: a.b.c.d" := by
  refine ⟨?_, ?_, ?_, ?_, ?_, rfl, rfl⟩
  · intro name
    unfold parseIdentifierString parseIdentifierRef
    rcases stringsSplit name '.' with _ | ⟨a, _ | ⟨b, _ | ⟨c, _ | ⟨d, l⟩⟩⟩⟩ <;> simp [invalidName]
  · intro name seg0 h
    simp [parseIdentifierString, h]
  · intro name seg0 seg1 h
    simp [parseIdentifierString, h]
  · intro name seg0 seg1 seg2 h
    simp [parseIdentifierString, h]
  · intro name h1 h2 h3
    unfold parseIdentifierString
    generalize stringsSplit name '.' = parts at h1 h2 h3
    rcases parts with _ | ⟨a, _ | ⟨b, _ | ⟨c, _ | ⟨d, l⟩⟩⟩⟩ <;> simp_all [invalidName]

/-- C1, at concrete inputs: the segment counts of `a`, `a.b`, `a.b.c` and of
the five-segment `a.b.c.d.e`, and what the parser returns on them. -/
theorem parseIdentifierString_eq_ref_witness :
    parseIdentifierString "a" = .ok { Catalog := "", Schema := "", Name := "a" }
    ∧ parseIdentifierString "a.b" = .ok { Catalog := "", Schema := "a", Name := "b" }
    ∧ parseIdentifierString "a.b.c" = .ok { Catalog := "a", Schema := "b", Name := "c" }
    ∧ parseIdentifierString "a.b.c.d.e" = .error ("invalid name: " ++ "a.b.c.d.e") :=
  ⟨parseIdentifierString_eq_ref.2.1 "a" "a" rfl,
   parseIdentifierString_eq_ref.2.2.1 "a.b" "a" "b" rfl,
   parseIdentifierString_eq_ref.2.2.2.1 "a.b.c" "a" "b" "c" rfl,
   parseIdentifierString_eq_ref.2.2.2.2.1 "a.b.c.d.e" (by decide) (by decide) (by decide)⟩

/-- C2, refuted: on the empty string the parser does not fail; `strings.Split`
yields the single segment `""` and the one-segment case returns an identifier. -/
theorem parseIdentifierString_empty_not_error :
    ¬ ∃ msg, parseIdentifierString "" = .error msg := by
  intro ⟨msg, h⟩
  have h2 : parseIdentifierString "" = .ok { Catalog := "", Schema := "", Name := "" } := rfl
  rw [h2] at h
  cases h

/-- C2, amended: on the empty string the parser returns, without an error, the
identifier whose catalog, schema and name are all empty. -/
theorem parseIdentifierString_empty :
    parseIdentifierString "" = .ok { Catalog := "", Schema := "", Name := "" } := rfl

/-! ## The built-in table -/

/-- Outside the case labels of the switch, `postgresType` is its `default:`
case. -/
theorem postgresType_of_not_builtin {σ : Type} (env : Env σ) (req : CodeGenRequest σ)
    (col : Column) (h : col.DataType ∉ builtinTypes) :
    postgresType env req col
      = postgresTypeDefault env req col.DataType (col.NotNull || col.IsArray) := by
  simp only [builtinTypes, List.mem_cons, List.mem_singleton, not_or, List.not_mem_nil,
    not_false_eq_true, and_true] at h
  simp [postgresType, h]

/-- C3: for every catalog, driver profile, `not_null` and `is_array`,
`postgresType` returns the documented identifier for every profile-independent
declared type of the table (serial variants as their non-serial counterparts,
`bigint` as `int64` under all profiles, `void` and `any` as `interface{}`). -/
theorem postgresType_documentedBuiltins {σ : Type} (env : Env σ) (req : CodeGenRequest σ)
    (notNull isArray : Bool) (row : String × String) (hrow : row ∈ documentedBuiltins) :
    (postgresType env req ⟨row.1, notNull, isArray⟩).1 = row.2 := by
  simp only [documentedBuiltins, List.mem_cons, List.mem_singleton, List.not_mem_nil,
    or_false] at hrow
  rcases hrow with h | h | h | h | h | h | h | h | h | h | h | h | h | h | h | h | h | h | h
    | h | h | h | h | h | h | h | h | h | h | h | h | h | h | h | h | h | h | h | h | h | h
    | h | h | h <;> subst h <;> simp [postgresType]

/-- C3, at concrete inputs: `bigint` is `int64` under both profiles, nullable or
not. -/
theorem postgresType_documentedBuiltins_witness :
    ("bigint", "int64") ∈ documentedBuiltins
    ∧ (postgresType (exampleEnv SQLDriverPGXV4) emptyReq ⟨"bigint", false, false⟩).1 = "int64"
    ∧ (postgresType (exampleEnv SQLDriverLibPQ) emptyReq ⟨"bigint", true, true⟩).1 = "int64" :=
  ⟨by decide,
   postgresType_documentedBuiltins (exampleEnv SQLDriverPGXV4) emptyReq false false
     ("bigint", "int64") (by decide),
   postgresType_documentedBuiltins (exampleEnv SQLDriverLibPQ) emptyReq true true
     ("bigint", "int64") (by decide)⟩

/-- C4: the decision table of the document types. Under `pgx/v4`, `json` is
`pgtype.JSON` and `jsonb` is `pgtype.JSONB` whatever the nullability; under
`lib/pq` both are `json.RawMessage` when `not_null OR is_array` holds and
`pqtype.NullRawMessage` when it does not; under any other driver both are
`interface{}`. So under `lib/pq` the result for `json` with `not_null` set
differs from the result with it unset (`is_array` unset). -/
theorem postgresType_json {σ : Type} (env : Env σ) (req : CodeGenRequest σ)
    (notNull isArray : Bool) :
    (env.parseDriver req.Settings = SQLDriverPGXV4 →
        (postgresType env req ⟨"json", notNull, isArray⟩).1 = "pgtype.JSON"
        ∧ (postgresType env req ⟨"jsonb", notNull, isArray⟩).1 = "pgtype.JSONB")
    ∧ (env.parseDriver req.Settings = SQLDriverLibPQ → (notNull || isArray) = true →
        (postgresType env req ⟨"json", notNull, isArray⟩).1 = "json.RawMessage"
        ∧ (postgresType env req ⟨"jsonb", notNull, isArray⟩).1 = "json.RawMessage")
    ∧ (env.parseDriver req.Settings = SQLDriverLibPQ → (notNull || isArray) = false →
        (postgresType env req ⟨"json", notNull, isArray⟩).1 = "pqtype.NullRawMessage"
        ∧ (postgresType env req ⟨"jsonb", notNull, isArray⟩).1 = "pqtype.NullRawMessage")
    ∧ (env.parseDriver req.Settings ≠ SQLDriverPGXV4 →
        env.parseDriver req.Settings ≠ SQLDriverLibPQ →
        (postgresType env req ⟨"json", notNull, isArray⟩).1 = "interface{}"
        ∧ (postgresType env req ⟨"jsonb", notNull, isArray⟩).1 = "interface{}")
    ∧ (env.parseDriver req.Settings = SQLDriverLibPQ →
        (postgresType env req ⟨"json", true, false⟩).1
          ≠ (postgresType env req ⟨"json", false, false⟩).1) := by
  refine ⟨?_, ?_, ?_, ?_, ?_⟩
  · intro h
    simp [postgresType, h]
  · intro h hn
    have hne : SQLDriverLibPQ ≠ SQLDriverPGXV4 := by decide
    simp [postgresType, h, hne, hn]
  · intro h hn
    have hne : SQLDriverLibPQ ≠ SQLDriverPGXV4 := by decide
    simp [postgresType, h, hne, hn]
  · intro h1 h2
    simp [postgresType, h1, h2]
  · intro h
    have hne : SQLDriverLibPQ ≠ SQLDriverPGXV4 := by decide
    simp [postgresType, h, hne]

/-- C4, at concrete inputs: the five rows of the table, each at a driver and a
nullability that meet its conditions. -/
theorem postgresType_json_witness :
    (postgresType (exampleEnv SQLDriverPGXV4) emptyReq ⟨"json", false, false⟩).1 = "pgtype.JSON"
    ∧ (postgresType (exampleEnv SQLDriverLibPQ) emptyReq ⟨"jsonb", false, true⟩).1
        = "json.RawMessage"
    ∧ (postgresType (exampleEnv SQLDriverLibPQ) emptyReq ⟨"json", false, false⟩).1
        = "pqtype.NullRawMessage"
    ∧ (postgresType (exampleEnv "mysql") emptyReq ⟨"jsonb", true, false⟩).1 = "interface{}"
    ∧ (postgresType (exampleEnv SQLDriverLibPQ) emptyReq ⟨"json", true, false⟩).1
        ≠ (postgresType (exampleEnv SQLDriverLibPQ) emptyReq ⟨"json", false, false⟩).1 :=
  ⟨((postgresType_json (exampleEnv SQLDriverPGXV4) emptyReq false false).1 rfl).1,
   ((postgresType_json (exampleEnv SQLDriverLibPQ) emptyReq false true).2.1 rfl rfl).2,
   ((postgresType_json (exampleEnv SQLDriverLibPQ) emptyReq false false).2.2.1 rfl rfl).1,
   ((postgresType_json (exampleEnv "mysql") emptyReq true false).2.2.2.1
      (by decide) (by decide)).2,
   (postgresType_json (exampleEnv SQLDriverLibPQ) emptyReq true true).2.2.2.2 rfl⟩

/-- C5: array coercion. For every declared type, catalog and driver profile a
column with `not_null` unset and `is_array` set resolves exactly as the same
column with `not_null` set and `is_array` unset (the log line included). -/
theorem postgresType_array_coercion {σ : Type} (env : Env σ) (req : CodeGenRequest σ)
    (declared : String) :
    postgresType env req ⟨declared, false, true⟩ = postgresType env req ⟨declared, true, false⟩ := by
  simp [postgresType]

/-- C6, refuted: under the standard profile `lib/pq` the network-address types
are not resolved to the dynamic sentinel; `inet` is `pqtype.Inet`. -/
theorem postgresType_inet_libpq_not_sentinel :
    (postgresType (exampleEnv SQLDriverLibPQ) emptyReq ⟨"inet", true, false⟩).1 = "pqtype.Inet"
    ∧ (postgresType (exampleEnv SQLDriverLibPQ) emptyReq ⟨"inet", true, false⟩).1
        ≠ "interface{}" := by
  decide

/-- C6, amended: for `inet`, `cidr`, `macaddr` and `macaddr8`, every catalog
and nullability: under `pgx/v4` the result is `pgtype.Inet`, `pgtype.CIDR`,
`pgtype.Macaddr`, `pgtype.Macaddr`; under `lib/pq` it is `pqtype.Inet`,
`pqtype.CIDR`, `pqtype.Macaddr`, `pqtype.Macaddr`; under a driver that is
neither it is the dynamic sentinel `interface{}`. -/
theorem postgresType_network {σ : Type} (env : Env σ) (req : CodeGenRequest σ)
    (notNull isArray : Bool) :
    (env.parseDriver req.Settings = SQLDriverPGXV4 →
        (postgresType env req ⟨"inet", notNull, isArray⟩).1 = "pgtype.Inet"
        ∧ (postgresType env req ⟨"cidr", notNull, isArray⟩).1 = "pgtype.CIDR"
        ∧ (postgresType env req ⟨"macaddr", notNull, isArray⟩).1 = "pgtype.Macaddr"
        ∧ (postgresType env req ⟨"macaddr8", notNull, isArray⟩).1 = "pgtype.Macaddr")
    ∧ (env.parseDriver req.Settings = SQLDriverLibPQ →
        (postgresType env req ⟨"inet", notNull, isArray⟩).1 = "pqtype.Inet"
        ∧ (postgresType env req ⟨"cidr", notNull, isArray⟩).1 = "pqtype.CIDR"
        ∧ (postgresType env req ⟨"macaddr", notNull, isArray⟩).1 = "pqtype.Macaddr"
        ∧ (postgresType env req ⟨"macaddr8", notNull, isArray⟩).1 = "pqtype.Macaddr")
    ∧ (env.parseDriver req.Settings ≠ SQLDriverPGXV4 →
        env.parseDriver req.Settings ≠ SQLDriverLibPQ →
        (postgresType env req ⟨"inet", notNull, isArray⟩).1 = "interface{}"
        ∧ (postgresType env req ⟨"cidr", notNull, isArray⟩).1 = "interface{}"
        ∧ (postgresType env req ⟨"macaddr", notNull, isArray⟩).1 = "interface{}"
        ∧ (postgresType env req ⟨"macaddr8", notNull, isArray⟩).1 = "interface{}") := by
  refine ⟨?_, ?_, ?_⟩
  · intro h
    simp [postgresType, h]
  · intro h
    have hne : SQLDriverLibPQ ≠ SQLDriverPGXV4 := by decide
    simp [postgresType, h, hne]
  · intro h1 h2
    simp [postgresType, h1, h2]

/-- C6 amended, at concrete inputs: one network-address type under each of
`pgx/v4`, `lib/pq` and a third driver. -/
theorem postgresType_network_witness :
    (postgresType (exampleEnv SQLDriverPGXV4) emptyReq ⟨"cidr", false, false⟩).1 = "pgtype.CIDR"
    ∧ (postgresType (exampleEnv SQLDriverLibPQ) emptyReq ⟨"macaddr8", false, false⟩).1
        = "pqtype.Macaddr"
    ∧ (postgresType (exampleEnv "mysql") emptyReq ⟨"inet", true, false⟩).1 = "interface{}" :=
  ⟨((postgresType_network (exampleEnv SQLDriverPGXV4) emptyReq false false).1 rfl).2.1,
   ((postgresType_network (exampleEnv SQLDriverLibPQ) emptyReq false false).2.1 rfl).2.2.2,
   ((postgresType_network (exampleEnv "mysql") emptyReq true false).2.2
      (by decide) (by decide)).1⟩

/-- C7: for `numeric`, `pg_catalog.numeric` and `money`, every catalog and
nullability, the result is `pgtype.Numeric` when the driver is `pgx/v4` and
`string` for every other driver value, `lib/pq` included. -/
theorem postgresType_numeric {σ : Type} (env : Env σ) (req : CodeGenRequest σ)
    (notNull isArray : Bool) :
    (env.parseDriver req.Settings = SQLDriverPGXV4 →
        (postgresType env req ⟨"numeric", notNull, isArray⟩).1 = "pgtype.Numeric"
        ∧ (postgresType env req ⟨"pg_catalog.numeric", notNull, isArray⟩).1 = "pgtype.Numeric"
        ∧ (postgresType env req ⟨"money", notNull, isArray⟩).1 = "pgtype.Numeric")
    ∧ (env.parseDriver req.Settings ≠ SQLDriverPGXV4 →
        (postgresType env req ⟨"numeric", notNull, isArray⟩).1 = "string"
        ∧ (postgresType env req ⟨"pg_catalog.numeric", notNull, isArray⟩).1 = "string"
        ∧ (postgresType env req ⟨"money", notNull, isArray⟩).1 = "string")
    ∧ (env.parseDriver req.Settings = SQLDriverLibPQ →
        (postgresType env req ⟨"numeric", notNull, isArray⟩).1 = "string"
        ∧ (postgresType env req ⟨"pg_catalog.numeric", notNull, isArray⟩).1 = "string"
        ∧ (postgresType env req ⟨"money", notNull, isArray⟩).1 = "string") := by
  refine ⟨?_, ?_, ?_⟩
  · intro h
    simp [postgresType, h]
  · intro h
    simp [postgresType, h]
  · intro h
    have hne : SQLDriverLibPQ ≠ SQLDriverPGXV4 := by decide
    simp [postgresType, h, hne]

/-- C7, at concrete inputs: `money` under `pgx/v4`, and `pg_catalog.numeric`
under `lib/pq`, which is not `pgx/v4`. -/
theorem postgresType_numeric_witness :
    (postgresType (exampleEnv SQLDriverPGXV4) emptyReq ⟨"money", false, false⟩).1
        = "pgtype.Numeric"
    ∧ (postgresType (exampleEnv SQLDriverLibPQ) emptyReq ⟨"pg_catalog.numeric", true, false⟩).1
        = "string"
    ∧ (postgresType (exampleEnv SQLDriverLibPQ) emptyReq ⟨"numeric", false, false⟩).1
        = "string" :=
  ⟨((postgresType_numeric (exampleEnv SQLDriverPGXV4) emptyReq false false).1 rfl).2.2,
   ((postgresType_numeric (exampleEnv SQLDriverLibPQ) emptyReq true false).2.1
      (by decide)).2.1,
   ((postgresType_numeric (exampleEnv SQLDriverLibPQ) emptyReq false false).2.2 rfl).1⟩

/-- C8: for `daterange`, `tsrange`, `tstzrange`, `numrange`, `int4range`,
`int8range` and `hstore`, every catalog and nullability, the result is the
`pgtype` identifier of the type when the driver is `pgx/v4`, and the dynamic
sentinel `interface{}` for every other driver value. -/
theorem postgresType_ranges {σ : Type} (env : Env σ) (req : CodeGenRequest σ)
    (notNull isArray : Bool) (row : String × String) (hrow : row ∈ documentedRanges) :
    (env.parseDriver req.Settings = SQLDriverPGXV4 →
        (postgresType env req ⟨row.1, notNull, isArray⟩).1 = row.2)
    ∧ (env.parseDriver req.Settings ≠ SQLDriverPGXV4 →
        (postgresType env req ⟨row.1, notNull, isArray⟩).1 = "interface{}") := by
  simp only [documentedRanges, List.mem_cons, List.mem_singleton, List.not_mem_nil,
    or_false] at hrow
  rcases hrow with h | h | h | h | h | h | h <;> subst h <;>
    exact ⟨fun h => by simp [postgresType, h], fun h => by simp [postgresType, h]⟩

/-- C8, at concrete inputs: `tstzrange` under `pgx/v4` and `hstore` under
`lib/pq`. -/
theorem postgresType_ranges_witness :
    (postgresType (exampleEnv SQLDriverPGXV4) emptyReq ⟨"tstzrange", false, false⟩).1
        = "pgtype.Tstzrange"
    ∧ (postgresType (exampleEnv SQLDriverLibPQ) emptyReq ⟨"hstore", true, false⟩).1
        = "interface{}" :=
  ⟨(postgresType_ranges (exampleEnv SQLDriverPGXV4) emptyReq false false
      ("tstzrange", "pgtype.Tstzrange") (by decide)).1 rfl,
   (postgresType_ranges (exampleEnv SQLDriverLibPQ) emptyReq true false
      ("hstore", "pgtype.Hstore") (by decide)).2 (by decide)⟩

/-- C9, refuted: the bare keywords `time`, `timetz` and `timestamp` and the
alias `pg_catalog.date` are no case labels of the switch; on a catalog without
schemas they resolve to `interface{}`, not to `time.Time`. -/
theorem postgresType_time_not_builtin :
    (postgresType (exampleEnv SQLDriverLibPQ) emptyReq ⟨"time", true, false⟩).1 = "interface{}"
    ∧ (postgresType (exampleEnv SQLDriverLibPQ) emptyReq ⟨"timetz", true, false⟩).1
        = "interface{}"
    ∧ (postgresType (exampleEnv SQLDriverLibPQ) emptyReq ⟨"timestamp", true, false⟩).1
        = "interface{}"
    ∧ (postgresType (exampleEnv SQLDriverLibPQ) emptyReq ⟨"pg_catalog.date", true, false⟩).1
        = "interface{}"
    ∧ (postgresType (exampleEnv SQLDriverLibPQ) emptyReq ⟨"time", true, false⟩).1
        ≠ "time.Time" := by
  decide

/-- C9, amended: the declared types `date`, `pg_catalog.time`,
`pg_catalog.timetz`, `pg_catalog.timestamp`, `pg_catalog.timestamptz` and
`timestamptz` resolve to `time.Time` for every catalog, driver profile and
nullability; `time`, `timetz`, `timestamp` and `pg_catalog.date` are not in
the table and are resolved by the catalog fallback. -/
theorem postgresType_datetime {σ : Type} (env : Env σ) (req : CodeGenRequest σ)
    (notNull isArray : Bool) :
    ((postgresType env req ⟨"date", notNull, isArray⟩).1 = "time.Time"
      ∧ (postgresType env req ⟨"pg_catalog.time", notNull, isArray⟩).1 = "time.Time"
      ∧ (postgresType env req ⟨"pg_catalog.timetz", notNull, isArray⟩).1 = "time.Time"
      ∧ (postgresType env req ⟨"pg_catalog.timestamp", notNull, isArray⟩).1 = "time.Time"
      ∧ (postgresType env req ⟨"pg_catalog.timestamptz", notNull, isArray⟩).1 = "time.Time"
      ∧ (postgresType env req ⟨"timestamptz", notNull, isArray⟩).1 = "time.Time")
    ∧ (postgresType env req ⟨"time", notNull, isArray⟩
        = postgresTypeDefault env req "time" (notNull || isArray)
      ∧ postgresType env req ⟨"timetz", notNull, isArray⟩
        = postgresTypeDefault env req "timetz" (notNull || isArray)
      ∧ postgresType env req ⟨"timestamp", notNull, isArray⟩
        = postgresTypeDefault env req "timestamp" (notNull || isArray)
      ∧ postgresType env req ⟨"pg_catalog.date", notNull, isArray⟩
        = postgresTypeDefault env req "pg_catalog.date" (notNull || isArray)) := by
  refine ⟨by simp [postgresType], ?_, ?_, ?_, ?_⟩ <;>
    exact postgresType_of_not_builtin env req _ (by simp [builtinTypes])

/-! ## The catalog fallback -/

/-- Whatever the enum loop returns is the derived name of the sought enum. -/
theorem scanEnums_eq_some {σ : Type} (env : Env σ) (req : CodeGenRequest σ)
    (rel : Identifier) (schema : Schema) (enums : List Enum) (r : String)
    (h : scanEnums env req rel schema enums = some r) :
    r = enumTypeName env req schema.Name rel.Name := by
  induction enums with
  | nil => simp [scanEnums] at h
  | cons e rest ih =>
    unfold scanEnums at h
    split at h
    · rename_i hm
      unfold enumTypeName
      split at h
      · rename_i hd
        simp only [Option.some.injEq] at h
        simp [hd, hm.1, ← h]
      · rename_i hd
        simp only [Option.some.injEq] at h
        simp [hd, hm.1, ← h]
    · exact ih h

/-- The enum loop returns when the schema matches and holds the sought enum. -/
theorem scanEnums_of_mem {σ : Type} (env : Env σ) (req : CodeGenRequest σ)
    (rel : Identifier) (schema : Schema) (enums : List Enum)
    (hs : rel.Schema = schema.Name) (hmem : (⟨rel.Name⟩ : Enum) ∈ enums) :
    scanEnums env req rel schema enums = some (enumTypeName env req schema.Name rel.Name) := by
  induction enums with
  | nil => simp at hmem
  | cons e rest ih =>
    by_cases hm : rel.Name = e.Name
    · unfold scanEnums enumTypeName
      simp only [hm, hs, and_self, if_true]
      split <;> rfl
    · have hrest : (⟨rel.Name⟩ : Enum) ∈ rest := by
        rcases List.mem_cons.1 hmem with h | h
        · exact absurd (congrArg Enum.Name h) hm
        · exact h
      unfold scanEnums
      simp [hm, ih hrest]

/-- The enum loop runs to its end in a schema of another name. -/
theorem scanEnums_of_schema_ne {σ : Type} (env : Env σ) (req : CodeGenRequest σ)
    (rel : Identifier) (schema : Schema) (enums : List Enum)
    (hs : rel.Schema ≠ schema.Name) :
    scanEnums env req rel schema enums = none := by
  induction enums with
  | nil => rfl
  | cons e rest ih => simp [scanEnums, hs, ih]

/-- The composite-type loop runs to its end in a schema of another name. -/
theorem scanCompositeTypes_of_schema_ne (notNull : Bool) (rel : Identifier)
    (schema : Schema) (cts : List CompositeType) (hs : rel.Schema ≠ schema.Name) :
    scanCompositeTypes notNull rel schema cts = none := by
  induction cts with
  | nil => rfl
  | cons ct rest ih => simp [scanCompositeTypes, hs, ih]

/-- The composite-type loop runs to its end when no composite type has the
sought name. -/
theorem scanCompositeTypes_of_not_mem (notNull : Bool) (rel : Identifier)
    (schema : Schema) (cts : List CompositeType)
    (hmem : (⟨rel.Name⟩ : CompositeType) ∉ cts) :
    scanCompositeTypes notNull rel schema cts = none := by
  induction cts with
  | nil => rfl
  | cons ct rest ih =>
    have hne : rel.Name ≠ ct.Name := by
      intro h
      apply hmem
      rw [h]
      exact List.mem_cons_self _ _
    have hrest : (⟨rel.Name⟩ : CompositeType) ∉ rest :=
      fun h => hmem (List.mem_cons_of_mem _ h)
    simp [scanCompositeTypes, hne, ih hrest]

/-- The schema loop returns the derived enum name when some schema of the
sought name holds the sought enum and no schema of that name before it holds a
composite type of the sought name. -/
theorem scanSchemas_enum {σ : Type} (env : Env σ) (req : CodeGenRequest σ)
    (notNull : Bool) (rel : Identifier) (pre post : List Schema) (s : Schema)
    (hpg : rel.Schema ≠ "pg_catalog") (hs : s.Name = rel.Schema)
    (henum : (⟨rel.Name⟩ : Enum) ∈ s.Enums)
    (hpre : ∀ t ∈ pre, t.Name = rel.Schema → (⟨rel.Name⟩ : CompositeType) ∉ t.CompositeTypes) :
    scanSchemas env req notNull rel (pre ++ s :: post)
      = some (enumTypeName env req rel.Schema rel.Name) := by
  induction pre with
  | nil =>
    have hspg : s.Name ≠ "pg_catalog" := by rw [hs]; exact hpg
    simp only [List.nil_append, scanSchemas, hspg, if_false]
    rw [scanEnums_of_mem env req rel s s.Enums hs.symm henum, hs]
  | cons t pre ih =>
    have ih2 := ih (fun u hu => hpre u (List.mem_cons_of_mem _ hu))
    simp only [List.cons_append, scanSchemas]
    split
    · exact ih2
    · by_cases ht : t.Name = rel.Schema
      · cases he : scanEnums env req rel t t.Enums with
        | some r =>
          rw [scanEnums_eq_some env req rel t t.Enums r he, ht]
        | none =>
          have hc := scanCompositeTypes_of_not_mem notNull rel t t.CompositeTypes
            (hpre t (List.mem_cons_self _ _) ht)
          simp only [hc]
          exact ih2
      · have hne : rel.Schema ≠ t.Name := fun h => ht h.symm
        simp only [scanEnums_of_schema_ne env req rel t t.Enums hne,
          scanCompositeTypes_of_schema_ne notNull rel t t.CompositeTypes hne]
        exact ih2

/-- C10: enum prefixing. Let a declared type outside the built-in table parse
to an identifier with name `N` and schema `S`, the catalog's default schema
standing in for a schema left unset; let `S` differ from `pg_catalog`, and let
the catalog hold a schema named `S` with an enum named `N`, no schema named
`S` before it holding a composite type named `N`. Then `postgresType` returns
`StructName(N)` when `S` is the default schema and `StructName(S + "_" + N)`
otherwise, whatever the nullability and the driver. -/
theorem postgresType_enum {σ : Type} (env : Env σ) (req : CodeGenRequest σ) (col : Column)
    (rel : Identifier) (S N : String) (pre post : List Schema) (s : Schema)
    (hbuiltin : col.DataType ∉ builtinTypes)
    (hparse : parseIdentifierString col.DataType = .ok rel)
    (hN : N = rel.Name)
    (hS : S = if rel.Schema = "" then req.Catalog.DefaultSchema else rel.Schema)
    (hpg : S ≠ "pg_catalog")
    (hschemas : req.Catalog.Schemas = pre ++ s :: post)
    (hs : s.Name = S) (henum : (⟨N⟩ : Enum) ∈ s.Enums)
    (hpre : ∀ t ∈ pre, t.Name = S → (⟨N⟩ : CompositeType) ∉ t.CompositeTypes) :
    (S = req.Catalog.DefaultSchema →
        (postgresType env req col).1 = env.StructName N req.Settings)
    ∧ (S ≠ req.Catalog.DefaultSchema →
        (postgresType env req col).1 = env.StructName (S ++ "_" ++ N) req.Settings) := by
  have key : (postgresType env req col).1 = enumTypeName env req S N := by
    rw [postgresType_of_not_builtin env req col hbuiltin]
    unfold postgresTypeDefault
    simp only [hparse, hschemas]
    have hrelS : (if rel.Schema = "" then { rel with Schema := req.Catalog.DefaultSchema }
        else rel).Schema = S := by
      rw [hS]; split <;> rfl
    have hrelN : (if rel.Schema = "" then { rel with Schema := req.Catalog.DefaultSchema }
        else rel).Name = N := by
      rw [hN]; split <;> rfl
    rw [scanSchemas_enum env req (col.NotNull || col.IsArray) _ pre post s
      (by rw [hrelS]; exact hpg) (by rw [hrelS]; exact hs) (by rw [hrelN]; exact henum)
      (by rw [hrelS, hrelN]; exact hpre), hrelS, hrelN]
  constructor
  · intro hd
    rw [key]; simp [enumTypeName, hd]
  · intro hd
    rw [key]; simp [enumTypeName, hd]

/-- C10, at concrete inputs: with default schema `public`, the enum `status`
of `public` declared as `status` yields `StructName("status")`, and the enum
`status` of `billing` declared as `billing.status` yields
`StructName("billing_status")`. -/
theorem postgresType_enum_witness :
    (postgresType (exampleEnv SQLDriverLibPQ) exampleReq ⟨"status", false, false⟩).1
        = (exampleEnv SQLDriverLibPQ).StructName "status" ()
    ∧ (postgresType (exampleEnv SQLDriverPGXV4) exampleReq ⟨"billing.status", true, false⟩).1
        = (exampleEnv SQLDriverPGXV4).StructName ("billing" ++ "_" ++ "status") () :=
  ⟨(postgresType_enum (exampleEnv SQLDriverLibPQ) exampleReq ⟨"status", false, false⟩
      { Name := "status" } "public" "status" []
      [{ Name := "billing", Enums := [⟨"status"⟩], CompositeTypes := [⟨"address"⟩] }]
      { Name := "public", Enums := [⟨"status"⟩] }
      (by decide) rfl rfl rfl (by decide) rfl rfl (by decide) (by simp)).1 rfl,
   (postgresType_enum (exampleEnv SQLDriverPGXV4) exampleReq ⟨"billing.status", true, false⟩
      { Schema := "billing", Name := "status" } "billing" "status"
      [{ Name := "public", Enums := [⟨"status"⟩] }] []
      { Name := "billing", Enums := [⟨"status"⟩], CompositeTypes := [⟨"address"⟩] }
      (by decide) rfl rfl rfl (by decide) rfl rfl (by decide) (by simp)).2 (by decide)⟩

/-- The enum loop runs to its end when no enum has the sought name. -/
theorem scanEnums_of_not_mem {σ : Type} (env : Env σ) (req : CodeGenRequest σ)
    (rel : Identifier) (schema : Schema) (enums : List Enum)
    (hmem : (⟨rel.Name⟩ : Enum) ∉ enums) :
    scanEnums env req rel schema enums = none := by
  induction enums with
  | nil => rfl
  | cons e rest ih =>
    have hne : rel.Name ≠ e.Name := by
      intro h
      apply hmem
      rw [h]
      exact List.mem_cons_self _ _
    have hrest : (⟨rel.Name⟩ : Enum) ∉ rest :=
      fun h => hmem (List.mem_cons_of_mem _ h)
    simp [scanEnums, hne, ih hrest]

/-- Whatever the composite-type loop returns is the string placeholder chosen
by the nullability. -/
theorem scanCompositeTypes_eq_some (notNull : Bool) (rel : Identifier) (schema : Schema)
    (cts : List CompositeType) (r : String)
    (h : scanCompositeTypes notNull rel schema cts = some r) :
    r = if notNull then "string" else "sql.NullString" := by
  induction cts with
  | nil => simp [scanCompositeTypes] at h
  | cons ct rest ih =>
    unfold scanCompositeTypes at h
    split at h
    · cases notNull <;> simp at h <;> simp [← h]
    · exact ih h

/-- The composite-type loop returns when the schema matches and holds the
sought composite type. -/
theorem scanCompositeTypes_of_mem (notNull : Bool) (rel : Identifier) (schema : Schema)
    (cts : List CompositeType) (hs : rel.Schema = schema.Name)
    (hmem : (⟨rel.Name⟩ : CompositeType) ∈ cts) :
    scanCompositeTypes notNull rel schema cts
      = some (if notNull then "string" else "sql.NullString") := by
  induction cts with
  | nil => simp at hmem
  | cons ct rest ih =>
    by_cases hm : rel.Name = ct.Name
    · unfold scanCompositeTypes
      simp only [hm, hs, and_self, if_true]
      split <;> rfl
    · have hrest : (⟨rel.Name⟩ : CompositeType) ∈ rest := by
        rcases List.mem_cons.1 hmem with h | h
        · exact absurd (congrArg CompositeType.Name h) hm
        · exact h
      unfold scanCompositeTypes
      simp [hm, ih hrest]

/-- The schema loop returns the string placeholder when some schema of the
sought name holds the sought composite type and no schema of that name holds
an enum of the sought name. -/
theorem scanSchemas_composite {σ : Type} (env : Env σ) (req : CodeGenRequest σ)
    (notNull : Bool) (rel : Identifier) (schemas : List Schema) (s : Schema)
    (hpg : rel.Schema ≠ "pg_catalog") (hmem : s ∈ schemas) (hs : s.Name = rel.Schema)
    (hct : (⟨rel.Name⟩ : CompositeType) ∈ s.CompositeTypes)
    (henum : ∀ t ∈ schemas, t.Name = rel.Schema → (⟨rel.Name⟩ : Enum) ∉ t.Enums) :
    scanSchemas env req notNull rel schemas
      = some (if notNull then "string" else "sql.NullString") := by
  induction schemas with
  | nil => simp at hmem
  | cons t rest ih =>
    have henum2 : ∀ u ∈ rest, u.Name = rel.Schema → (⟨rel.Name⟩ : Enum) ∉ u.Enums :=
      fun u hu => henum u (List.mem_cons_of_mem _ hu)
    unfold scanSchemas
    split
    · rename_i htpg
      have hst : s ≠ t := by
        intro h
        apply hpg
        rw [← hs, h, htpg]
      have hrest : s ∈ rest := by
        rcases List.mem_cons.1 hmem with h | h
        · exact absurd h hst
        · exact h
      exact ih hrest henum2
    · by_cases ht : t.Name = rel.Schema
      · rw [scanEnums_of_not_mem env req rel t t.Enums (henum t (List.mem_cons_self _ _) ht)]
        cases hc : scanCompositeTypes notNull rel t t.CompositeTypes with
        | some r =>
          rw [scanCompositeTypes_eq_some notNull rel t t.CompositeTypes r hc]
        | none =>
          have hst : s ≠ t := by
            intro h
            rw [h] at hct
            rw [scanCompositeTypes_of_mem notNull rel t t.CompositeTypes ht.symm hct] at hc
            cases hc
          have hrest : s ∈ rest := by
            rcases List.mem_cons.1 hmem with h | h
            · exact absurd h hst
            · exact h
          exact ih hrest henum2
      · have hne : rel.Schema ≠ t.Name := fun h => ht h.symm
        have hst : s ≠ t := by
          intro h
          apply ht
          rw [← h, hs]
        have hrest : s ∈ rest := by
          rcases List.mem_cons.1 hmem with h | h
          · exact absurd h hst
          · exact h
        simp only [scanEnums_of_schema_ne env req rel t t.Enums hne,
          scanCompositeTypes_of_schema_ne notNull rel t t.CompositeTypes hne]
        exact ih hrest henum2

/-- The schema loop runs to its end when no schema it visits has the sought
name together with an enum or composite type of the sought name. -/
theorem scanSchemas_none {σ : Type} (env : Env σ) (req : CodeGenRequest σ)
    (notNull : Bool) (rel : Identifier) (schemas : List Schema)
    (h : ∀ t ∈ schemas, t.Name ≠ "pg_catalog" → t.Name = rel.Schema →
      (⟨rel.Name⟩ : Enum) ∉ t.Enums ∧ (⟨rel.Name⟩ : CompositeType) ∉ t.CompositeTypes) :
    scanSchemas env req notNull rel schemas = none := by
  induction schemas with
  | nil => rfl
  | cons t rest ih =>
    have ih2 := ih (fun u hu => h u (List.mem_cons_of_mem _ hu))
    unfold scanSchemas
    split
    · exact ih2
    · rename_i htpg
      by_cases ht : t.Name = rel.Schema
      · have hn := h t (List.mem_cons_self _ _) htpg ht
        simp only [scanEnums_of_not_mem env req rel t t.Enums hn.1,
          scanCompositeTypes_of_not_mem notNull rel t t.CompositeTypes hn.2]
        exact ih2
      · have hne : rel.Schema ≠ t.Name := fun h => ht h.symm
        simp only [scanEnums_of_schema_ne env req rel t t.Enums hne,
          scanCompositeTypes_of_schema_ne notNull rel t t.CompositeTypes hne]
        exact ih2

/-- The identifier the catalog fallback looks up has the effective schema and
the parsed name. -/
theorem resolved_rel {σ : Type} (req : CodeGenRequest σ) (rel : Identifier) :
    (if rel.Schema = "" then { rel with Schema := req.Catalog.DefaultSchema }
      else rel).Schema = effectiveSchema req rel
    ∧ (if rel.Schema = "" then { rel with Schema := req.Catalog.DefaultSchema }
      else rel).Name = rel.Name := by
  unfold effectiveSchema
  constructor <;> split <;> rfl

/-- C11, refuted: a composite type in a schema named `pg_catalog` is not
found; the column declared `pg_catalog.address` resolves to `interface{}`. -/
theorem postgresType_composite_pg_catalog :
    (postgresType (exampleEnv SQLDriverLibPQ) pgCatalogReq
        ⟨"pg_catalog.address", true, false⟩).1 = "interface{}"
    ∧ (postgresType (exampleEnv SQLDriverLibPQ) pgCatalogReq
        ⟨"pg_catalog.address", true, false⟩).1 ≠ "string" := by
  decide

/-- C11, amended: composite fallback. Let a declared type outside the built-in
table parse to name `N` and schema `S` (the default schema when unset), with
`S` different from `pg_catalog`; let the catalog hold a schema named `S` with a
composite type named `N`, and let no schema named `S` hold an enum named `N`.
Then the column resolves to `string` when `not_null` is set and to
`sql.NullString` when `not_null` and `is_array` are both unset, for every
driver profile. -/
theorem postgresType_composite {σ : Type} (env : Env σ) (req : CodeGenRequest σ)
    (col : Column) (rel : Identifier) (S N : String) (s : Schema)
    (hbuiltin : col.DataType ∉ builtinTypes)
    (hparse : parseIdentifierString col.DataType = .ok rel)
    (hN : N = rel.Name) (hS : S = effectiveSchema req rel)
    (hpg : S ≠ "pg_catalog")
    (hmem : s ∈ req.Catalog.Schemas) (hs : s.Name = S)
    (hct : (⟨N⟩ : CompositeType) ∈ s.CompositeTypes)
    (henum : ∀ t ∈ req.Catalog.Schemas, t.Name = S → (⟨N⟩ : Enum) ∉ t.Enums) :
    (col.NotNull = true → (postgresType env req col).1 = "string")
    ∧ (col.NotNull = false → col.IsArray = false →
        (postgresType env req col).1 = "sql.NullString") := by
  have key : (postgresType env req col).1
      = if (col.NotNull || col.IsArray) then "string" else "sql.NullString" := by
    rw [postgresType_of_not_builtin env req col hbuiltin]
    unfold postgresTypeDefault
    simp only [hparse]
    obtain ⟨hrelS, hrelN⟩ := resolved_rel req rel
    rw [scanSchemas_composite env req (col.NotNull || col.IsArray) _ req.Catalog.Schemas s
      (by rw [hrelS, ← hS]; exact hpg) hmem (by rw [hrelS, ← hS]; exact hs)
      (by rw [hrelN, ← hN]; exact hct)
      (by rw [hrelS, hrelN, ← hS, ← hN]; exact henum)]
  constructor
  · intro hn
    rw [key]; simp [hn]
  · intro hn ha
    rw [key]; simp [hn, ha]

/-- C11 amended, at concrete inputs: the composite type `address` of the
schema `billing`, declared as `billing.address`, not null and nullable. -/
theorem postgresType_composite_witness :
    (postgresType (exampleEnv SQLDriverPGXV4) exampleReq ⟨"billing.address", true, false⟩).1
        = "string"
    ∧ (postgresType (exampleEnv SQLDriverLibPQ) exampleReq ⟨"billing.address", false, false⟩).1
        = "sql.NullString" :=
  ⟨(postgresType_composite (exampleEnv SQLDriverPGXV4) exampleReq
      ⟨"billing.address", true, false⟩ { Schema := "billing", Name := "address" }
      "billing" "address"
      { Name := "billing", Enums := [⟨"status"⟩], CompositeTypes := [⟨"address"⟩] }
      (by decide) rfl rfl rfl (by decide) (by decide) rfl (by decide) (by decide)).1 rfl,
   (postgresType_composite (exampleEnv SQLDriverLibPQ) exampleReq
      ⟨"billing.address", false, false⟩ { Schema := "billing", Name := "address" }
      "billing" "address"
      { Name := "billing", Enums := [⟨"status"⟩], CompositeTypes := [⟨"address"⟩] }
      (by decide) rfl rfl rfl (by decide) (by decide) rfl (by decide) (by decide)).2 rfl rfl⟩

/-- On a case label of the switch the result is read off the driver and the
column alone: the catalog, the struct namer and the diagnostics flag are not
consulted. -/
theorem postgresType_of_builtin {σ τ : Type} (env : Env σ) (req : CodeGenRequest σ)
    (env' : Env τ) (req' : CodeGenRequest τ) (col : Column)
    (h : col.DataType ∈ builtinTypes)
    (hd : env'.parseDriver req'.Settings = env.parseDriver req.Settings) :
    postgresType env' req' col = postgresType env req col := by
  obtain ⟨t, nn, arr⟩ := col
  simp only [builtinTypes, List.mem_cons, List.mem_singleton, List.not_mem_nil,
    or_false] at h
  casesm* _ ∨ _ <;> subst t <;> simp [postgresType, hd]

/-- The enum loop reads the request only for its settings and its default
schema. -/
theorem scanEnums_congr {σ : Type} (env : Env σ) (req req' : CodeGenRequest σ)
    (rel : Identifier) (schema : Schema) (enums : List Enum)
    (hset : req'.Settings = req.Settings)
    (hdef : req'.Catalog.DefaultSchema = req.Catalog.DefaultSchema) :
    scanEnums env req' rel schema enums = scanEnums env req rel schema enums := by
  induction enums with
  | nil => rfl
  | cons e rest ih => simp [scanEnums, hset, hdef, ih]

/-- The schema loop reads the request only for its settings and its default
schema. -/
theorem scanSchemas_congr {σ : Type} (env : Env σ) (req req' : CodeGenRequest σ)
    (notNull : Bool) (rel : Identifier) (schemas : List Schema)
    (hset : req'.Settings = req.Settings)
    (hdef : req'.Catalog.DefaultSchema = req.Catalog.DefaultSchema) :
    scanSchemas env req' notNull rel schemas = scanSchemas env req notNull rel schemas := by
  induction schemas with
  | nil => rfl
  | cons t rest ih =>
    simp [scanSchemas, scanEnums_congr env req req' rel t t.Enums hset hdef, ih]

/-- Dropping the schemas named `pg_catalog` does not change what the schema
loop returns. -/
theorem scanSchemas_filter {σ : Type} (env : Env σ) (req : CodeGenRequest σ)
    (notNull : Bool) (rel : Identifier) (schemas : List Schema) :
    scanSchemas env req notNull rel
        (schemas.filter fun s => !decide (s.Name = "pg_catalog"))
      = scanSchemas env req notNull rel schemas := by
  induction schemas with
  | nil => rfl
  | cons t rest ih =>
    by_cases ht : t.Name = "pg_catalog"
    · simp [List.filter, scanSchemas, ht, ih]
    · simp [List.filter, scanSchemas, ht, ih]

/-- The catalog fallback on a request with another schema list. -/
theorem postgresTypeDefault_withSchemas {σ : Type} (env : Env σ) (req : CodeGenRequest σ)
    (schemas : List Schema) (columnType : String) (notNull : Bool) :
    postgresTypeDefault env (withSchemas req schemas) columnType notNull
      = match parseIdentifierString columnType with
        | .error _ => ("interface{}", [])
        | .ok rel0 =>
          match scanSchemas env req notNull
              (if rel0.Schema = "" then { rel0 with Schema := req.Catalog.DefaultSchema }
                else rel0) schemas with
          | some r => (r, [])
          | none =>
            ("interface{}", if env.debugActive then [unknownTypeLog columnType] else []) := by
  unfold postgresTypeDefault
  cases parseIdentifierString columnType with
  | error e => rfl
  | ok rel0 =>
    simp only
    rw [scanSchemas_congr env req (withSchemas req schemas) notNull _ _ rfl rfl]
    rfl

/-- C12: `pg_catalog` is never scanned. On every catalog, column and driver
profile `postgresType` returns what it returns on the catalog without its
schemas named `pg_catalog`; and when a declared type outside the built-in
table names an enum or composite type that no schema other than `pg_catalog`
holds, the result is `interface{}`. -/
theorem postgresType_pg_catalog_not_scanned {σ : Type} (env : Env σ)
    (req : CodeGenRequest σ) (col : Column) :
    postgresType env (removePgCatalog req) col = postgresType env req col
    ∧ (col.DataType ∉ builtinTypes →
        (∀ rel, parseIdentifierString col.DataType = .ok rel →
          ∀ s ∈ req.Catalog.Schemas, s.Name ≠ "pg_catalog" →
            (⟨rel.Name⟩ : Enum) ∉ s.Enums ∧ (⟨rel.Name⟩ : CompositeType) ∉ s.CompositeTypes) →
        (postgresType env req col).1 = "interface{}") := by
  constructor
  · by_cases hb : col.DataType ∈ builtinTypes
    · exact postgresType_of_builtin env req env (removePgCatalog req) col hb rfl
    · rw [postgresType_of_not_builtin env req col hb,
        postgresType_of_not_builtin env (removePgCatalog req) col hb]
      unfold removePgCatalog
      rw [postgresTypeDefault_withSchemas]
      unfold postgresTypeDefault
      cases parseIdentifierString col.DataType with
      | error e => rfl
      | ok rel0 => simp only [scanSchemas_filter]
  · intro hb h
    rw [postgresType_of_not_builtin env req col hb]
    unfold postgresTypeDefault
    cases hp : parseIdentifierString col.DataType with
    | error e => rfl
    | ok rel0 =>
      obtain ⟨_, hrelN⟩ := resolved_rel req rel0
      simp only
      rw [scanSchemas_none env req _ _ req.Catalog.Schemas
        (fun t ht htpg _ => by rw [hrelN]; exact h rel0 hp t ht htpg)]

/-- C12, at concrete inputs: the enum `mood` and the composite type `address`
exist only in the schema `pg_catalog`; bare or qualified they resolve to
`interface{}`. -/
theorem postgresType_pg_catalog_not_scanned_witness :
    (postgresType (exampleEnv SQLDriverLibPQ) pgCatalogReq ⟨"mood", true, false⟩).1
        = "interface{}"
    ∧ (postgresType (exampleEnv SQLDriverLibPQ) pgCatalogReq
        ⟨"pg_catalog.address", false, false⟩).1 = "interface{}" :=
  ⟨(postgresType_pg_catalog_not_scanned (exampleEnv SQLDriverLibPQ) pgCatalogReq
      ⟨"mood", true, false⟩).2 (by decide)
      (fun rel _ s hs hne => by simp [pgCatalogReq] at hs; exact absurd (hs ▸ rfl) hne),
   (postgresType_pg_catalog_not_scanned (exampleEnv SQLDriverLibPQ) pgCatalogReq
      ⟨"pg_catalog.address", false, false⟩).2 (by decide)
      (fun rel _ s hs hne => by simp [pgCatalogReq] at hs; exact absurd (hs ▸ rfl) hne)⟩

/-- C13: unknown type. For a declared type outside the built-in table, on a
catalog in which no schema other than `pg_catalog` has the name of the parsed
identifier's schema (the default schema when unset) together with an enum or
composite type of the parsed name, `postgresType` returns the dynamic sentinel
`interface{}`, for every driver profile, nullability and value of the
diagnostics flag; being a function into strings, it does not fail. -/
theorem postgresType_unknown {σ : Type} (env : Env σ) (req : CodeGenRequest σ)
    (col : Column) (hb : col.DataType ∉ builtinTypes)
    (h : ∀ rel, parseIdentifierString col.DataType = .ok rel →
      ∀ s ∈ req.Catalog.Schemas, s.Name ≠ "pg_catalog" → s.Name = effectiveSchema req rel →
        (⟨rel.Name⟩ : Enum) ∉ s.Enums ∧ (⟨rel.Name⟩ : CompositeType) ∉ s.CompositeTypes) :
    (postgresType env req col).1 = "interface{}" := by
  rw [postgresType_of_not_builtin env req col hb]
  unfold postgresTypeDefault
  cases hp : parseIdentifierString col.DataType with
  | error e => rfl
  | ok rel0 =>
    obtain ⟨hrelS, hrelN⟩ := resolved_rel req rel0
    simp only
    rw [scanSchemas_none env req _ _ req.Catalog.Schemas
      (fun t ht htpg hts => by
        rw [hrelN]
        exact h rel0 hp t ht htpg (by rw [hts, hrelS]))]

/-- C13, at concrete inputs: `frobnicate` on the catalog with the enum `status`
and the composite type `address`, diagnostics on and off. -/
theorem postgresType_unknown_witness :
    (postgresType { exampleEnv SQLDriverLibPQ with debugActive := true } exampleReq
        ⟨"frobnicate", false, false⟩).1 = "interface{}"
    ∧ (postgresType (exampleEnv SQLDriverPGXV4) exampleReq ⟨"frobnicate", true, true⟩).1
        = "interface{}" :=
  ⟨postgresType_unknown { exampleEnv SQLDriverLibPQ with debugActive := true } exampleReq
      ⟨"frobnicate", false, false⟩ (by decide)
      (fun rel hrel => by
        have hr : rel = { Name := "frobnicate" } := by
          have h2 : parseIdentifierString "frobnicate" = .ok { Name := "frobnicate" } := rfl
          rw [h2] at hrel
          exact (Except.ok.inj hrel).symm
        subst hr
        decide),
   postgresType_unknown (exampleEnv SQLDriverPGXV4) exampleReq
      ⟨"frobnicate", true, true⟩ (by decide)
      (fun rel hrel => by
        have hr : rel = { Name := "frobnicate" } := by
          have h2 : parseIdentifierString "frobnicate" = .ok { Name := "frobnicate" } := rfl
          rw [h2] at hrel
          exact (Except.ok.inj hrel).symm
        subst hr
        decide)⟩

/-- Every case label of the switch is a name the parser accepts. -/
theorem parseIdentifierString_builtin (t : String) (h : t ∈ builtinTypes) :
    ∃ rel, parseIdentifierString t = .ok rel := by
  simp only [builtinTypes, List.mem_cons, List.mem_singleton, List.not_mem_nil,
    or_false] at h
  casesm* _ ∨ _ <;> subst t <;> exact ⟨_, rfl⟩

/-- The parser fails on a name of more than three segments. -/
theorem parseIdentifierString_of_long (name : String)
    (h : 3 < (stringsSplit name '.').length) :
    parseIdentifierString name = .error (invalidName name) := by
  unfold parseIdentifierString
  generalize stringsSplit name '.' = parts at h
  rcases parts with _ | ⟨a, _ | ⟨b, _ | ⟨c, _ | ⟨d, l⟩⟩⟩⟩ <;> simp_all

/-- C14: parse failures are swallowed. For every declared type on which
`parseIdentifierString` fails, as on every string of more than three
dot-separated segments, `postgresType` returns the dynamic sentinel
`interface{}` and writes no log line, for every catalog, driver profile and
nullability. -/
theorem postgresType_parse_failure {σ : Type} (env : Env σ) (req : CodeGenRequest σ)
    (col : Column) :
    ((∃ msg, parseIdentifierString col.DataType = .error msg) →
        postgresType env req col = ("interface{}", []))
    ∧ (3 < (stringsSplit col.DataType '.').length →
        postgresType env req col = ("interface{}", [])) := by
  have key : ∀ msg, parseIdentifierString col.DataType = .error msg →
      postgresType env req col = ("interface{}", []) := by
    intro msg hmsg
    have hb : col.DataType ∉ builtinTypes := by
      intro hmem
      obtain ⟨rel, hrel⟩ := parseIdentifierString_builtin col.DataType hmem
      rw [hrel] at hmsg
      cases hmsg
    rw [postgresType_of_not_builtin env req col hb]
    unfold postgresTypeDefault
    rw [hmsg]
  exact ⟨fun ⟨msg, hmsg⟩ => key msg hmsg,
    fun hlen => key _ (parseIdentifierString_of_long col.DataType hlen)⟩

/-- C14, at concrete inputs: `a.b.c.d` has four segments, the parser fails on
it, and the resolver returns `interface{}`. -/
theorem postgresType_parse_failure_witness :
    (∃ msg, parseIdentifierString "a.b.c.d" = .error msg)
    ∧ 3 < (stringsSplit "a.b.c.d" '.').length
    ∧ postgresType (exampleEnv SQLDriverLibPQ) exampleReq ⟨"a.b.c.d", false, false⟩
        = ("interface{}", [])
    ∧ postgresType (exampleEnv SQLDriverPGXV4) exampleReq ⟨"a.b.c.d", true, false⟩
        = ("interface{}", []) :=
  ⟨⟨_, rfl⟩, by decide,
   (postgresType_parse_failure (exampleEnv SQLDriverLibPQ) exampleReq
      ⟨"a.b.c.d", false, false⟩).1 ⟨_, rfl⟩,
   (postgresType_parse_failure (exampleEnv SQLDriverPGXV4) exampleReq
      ⟨"a.b.c.d", true, false⟩).2 (by decide)⟩

/-! ## Aliases, drivers and nullability -/

/-- C15, refuted: `pg_catalog.varchar` and `pg_catalog.time` are case labels of
the switch, the bare `varchar` and `time` are not; on a catalog without schemas
the bare keywords resolve to `interface{}`, their aliases to `string` and
`time.Time`. -/
theorem postgresType_alias_differs :
    (postgresType (exampleEnv SQLDriverLibPQ) emptyReq ⟨"varchar", true, false⟩).1
        = "interface{}"
    ∧ (postgresType (exampleEnv SQLDriverLibPQ) emptyReq
        ⟨"pg_catalog." ++ "varchar", true, false⟩).1 = "string"
    ∧ (postgresType (exampleEnv SQLDriverLibPQ) emptyReq ⟨"time", true, false⟩).1
        ≠ (postgresType (exampleEnv SQLDriverLibPQ) emptyReq
            ⟨"pg_catalog." ++ "time", true, false⟩).1 := by
  decide

/-- C15, amended: for the type keywords `X` among `serial4`, `serial8`,
`serial2`, `int4`, `int8`, `int2`, `float8`, `float4`, `numeric`, `bool`,
`bytea`, `timestamptz` and `interval`, and every catalog, driver profile and
nullability, `postgresType` on `X` returns what it returns on `pg_catalog.X`;
for `time`, `timetz`, `timestamp`, `varchar` and `bpchar` only `pg_catalog.X`
is in the table, and the bare `X` is resolved by the catalog fallback. -/
theorem postgresType_alias {σ : Type} (env : Env σ) (req : CodeGenRequest σ)
    (notNull isArray : Bool) (X : String) :
    (X ∈ aliasedKeywords →
        postgresType env req ⟨X, notNull, isArray⟩
          = postgresType env req ⟨"pg_catalog." ++ X, notNull, isArray⟩)
    ∧ (X ∈ qualifiedOnlyKeywords →
        "pg_catalog." ++ X ∈ builtinTypes
        ∧ postgresType env req ⟨X, notNull, isArray⟩
          = postgresTypeDefault env req X (notNull || isArray)) := by
  constructor
  · intro h
    simp only [aliasedKeywords, List.mem_cons, List.mem_singleton, List.not_mem_nil,
      or_false] at h
    casesm* _ ∨ _ <;> subst X <;> simp [postgresType]
  · intro h
    simp only [qualifiedOnlyKeywords, List.mem_cons, List.mem_singleton, List.not_mem_nil,
      or_false] at h
    casesm* _ ∨ _ <;> subst X <;>
      exact ⟨by decide, postgresType_of_not_builtin env req _ (by simp [builtinTypes])⟩

/-- C15 amended, at concrete inputs: `int8` and `pg_catalog.int8`, and the bare
`bpchar`. -/
theorem postgresType_alias_witness :
    postgresType (exampleEnv SQLDriverLibPQ) exampleReq ⟨"int8", false, false⟩
        = postgresType (exampleEnv SQLDriverLibPQ) exampleReq
            ⟨"pg_catalog." ++ "int8", false, false⟩
    ∧ postgresType (exampleEnv SQLDriverLibPQ) exampleReq ⟨"bpchar", false, false⟩
        = postgresTypeDefault (exampleEnv SQLDriverLibPQ) exampleReq "bpchar"
            (false || false) :=
  ⟨(postgresType_alias (exampleEnv SQLDriverLibPQ) exampleReq false false "int8").1
      (by decide),
   ((postgresType_alias (exampleEnv SQLDriverLibPQ) exampleReq false false "bpchar").2
      (by decide)).2⟩

/-- The schema loop reads the nullability only when a composite type is found:
it does not on schemas without composite types. -/
theorem scanSchemas_no_composites {σ : Type} (env : Env σ) (req : CodeGenRequest σ)
    (notNull notNull' : Bool) (rel : Identifier) (schemas : List Schema)
    (h : ∀ s ∈ schemas, s.CompositeTypes = []) :
    scanSchemas env req notNull rel schemas = scanSchemas env req notNull' rel schemas := by
  induction schemas with
  | nil => rfl
  | cons t rest ih =>
    have ih2 := ih (fun u hu => h u (List.mem_cons_of_mem _ hu))
    unfold scanSchemas
    rw [h t (List.mem_cons_self _ _), ih2]
    rfl

/-- C19: nullability matters for documents and composites only. On a catalog
without composite types, for every driver profile and every declared type
other than `json` and `jsonb`, `postgresType` returns the same for all
combinations of `not_null` and `is_array`. -/
theorem postgresType_nullability_irrelevant {σ : Type} (env : Env σ)
    (req : CodeGenRequest σ) (declared : String)
    (notNull isArray notNull' isArray' : Bool)
    (hcomp : ∀ s ∈ req.Catalog.Schemas, s.CompositeTypes = [])
    (hjson : declared ≠ "json") (hjsonb : declared ≠ "jsonb") :
    postgresType env req ⟨declared, notNull, isArray⟩
      = postgresType env req ⟨declared, notNull', isArray'⟩ := by
  by_cases hb : declared ∈ builtinTypes
  · simp only [builtinTypes, List.mem_cons, List.mem_singleton, List.not_mem_nil,
      or_false] at hb
    casesm* _ ∨ _ <;> subst declared <;> simp [postgresType] at hjson hjsonb ⊢
  · rw [postgresType_of_not_builtin env req ⟨declared, notNull, isArray⟩ hb,
      postgresType_of_not_builtin env req ⟨declared, notNull', isArray'⟩ hb]
    unfold postgresTypeDefault
    cases parseIdentifierString declared with
    | error e => rfl
    | ok rel0 =>
      simp only
      rw [scanSchemas_no_composites env req (notNull || isArray) (notNull' || isArray') _
        req.Catalog.Schemas hcomp]

/-- C19, at concrete inputs: a nullable `integer` column is `int32`, and the
enum column `status` has the same derived name nullable or not, on a catalog
whose schema `public` has the enum `status` and no composite type. -/
theorem postgresType_nullability_irrelevant_witness :
    (postgresType (exampleEnv SQLDriverLibPQ)
        (withSchemas exampleReq [{ Name := "public", Enums := [⟨"status"⟩] }])
        ⟨"integer", false, false⟩).1 = "int32"
    ∧ postgresType (exampleEnv SQLDriverLibPQ)
        (withSchemas exampleReq [{ Name := "public", Enums := [⟨"status"⟩] }])
        ⟨"status", false, false⟩
      = postgresType (exampleEnv SQLDriverLibPQ)
        (withSchemas exampleReq [{ Name := "public", Enums := [⟨"status"⟩] }])
        ⟨"status", true, true⟩ :=
  ⟨by decide,
   postgresType_nullability_irrelevant (exampleEnv SQLDriverLibPQ)
     (withSchemas exampleReq [{ Name := "public", Enums := [⟨"status"⟩] }])
     "status" false false true true (by decide) (by decide) (by decide)⟩

/-- A schema that is not skipped, has the sought name and holds the sought
enum or composite type decides the schema loop. -/
theorem scanSchemas_cons_match {σ : Type} (env : Env σ) (req : CodeGenRequest σ)
    (notNull : Bool) (rel : Identifier) (s : Schema) (rest : List Schema)
    (hpg : s.Name ≠ "pg_catalog") (hs : s.Name = rel.Schema)
    (h : (⟨rel.Name⟩ : Enum) ∈ s.Enums ∨ (⟨rel.Name⟩ : CompositeType) ∈ s.CompositeTypes) :
    scanSchemas env req notNull rel (s :: rest) = scanSchemas env req notNull rel [s]
    ∧ ((⟨rel.Name⟩ : Enum) ∈ s.Enums →
        scanSchemas env req notNull rel (s :: rest)
          = some (enumTypeName env req rel.Schema rel.Name))
    ∧ ((⟨rel.Name⟩ : Enum) ∉ s.Enums →
        scanSchemas env req notNull rel (s :: rest)
          = some (if notNull then "string" else "sql.NullString")) := by
  by_cases he : (⟨rel.Name⟩ : Enum) ∈ s.Enums
  · have h1 := scanEnums_of_mem env req rel s s.Enums hs.symm he
    refine ⟨?_, fun _ => ?_, fun hn => absurd he hn⟩
    · simp only [scanSchemas, hpg, if_false, h1]
    · simp only [scanSchemas, hpg, if_false, h1]
      rw [hs]
  · have hc : (⟨rel.Name⟩ : CompositeType) ∈ s.CompositeTypes := by
      rcases h with h | h
      · exact absurd h he
      · exact h
    have h1 := scanEnums_of_not_mem env req rel s s.Enums he
    have h2 := scanCompositeTypes_of_mem notNull rel s s.CompositeTypes hs.symm hc
    refine ⟨?_, fun hn => absurd hn he, fun _ => ?_⟩
    · simp only [scanSchemas, hpg, if_false, h1, h2]
    · simp only [scanSchemas, hpg, if_false, h1, h2]

/-- A schema that is skipped, has another name or holds neither the sought
enum nor the sought composite type leaves the decision to the schemas after
it. -/
theorem scanSchemas_cons_no_match {σ : Type} (env : Env σ) (req : CodeGenRequest σ)
    (notNull : Bool) (rel : Identifier) (s : Schema) (rest : List Schema)
    (h : ¬ (s.Name ≠ "pg_catalog" ∧ s.Name = rel.Schema
      ∧ ((⟨rel.Name⟩ : Enum) ∈ s.Enums
        ∨ (⟨rel.Name⟩ : CompositeType) ∈ s.CompositeTypes))) :
    scanSchemas env req notNull rel (s :: rest) = scanSchemas env req notNull rel rest := by
  rw [scanSchemas]
  split
  · rfl
  · rename_i hpg
    by_cases hs : s.Name = rel.Schema
    · have hn : (⟨rel.Name⟩ : Enum) ∉ s.Enums
          ∧ (⟨rel.Name⟩ : CompositeType) ∉ s.CompositeTypes := by
        constructor
        · exact fun hm => h ⟨hpg, hs, Or.inl hm⟩
        · exact fun hm => h ⟨hpg, hs, Or.inr hm⟩
      simp only [scanEnums_of_not_mem env req rel s s.Enums hn.1,
        scanCompositeTypes_of_not_mem notNull rel s s.CompositeTypes hn.2]
    · have hne : rel.Schema ≠ s.Name := fun h => hs h.symm
      simp only [scanEnums_of_schema_ne env req rel s s.Enums hne,
        scanCompositeTypes_of_schema_ne notNull rel s s.CompositeTypes hne]

/-! ## First match wins -/

/-- The identifier of the catalog fallback, after the schema is defaulted, is
`lookupRel`. -/
theorem resolved_rel_eq {σ : Type} (req : CodeGenRequest σ) (rel : Identifier) :
    (if rel.Schema = "" then { rel with Schema := req.Catalog.DefaultSchema } else rel)
      = lookupRel req rel := by
  unfold lookupRel effectiveSchema
  split <;> rfl

/-- Outside the case labels and on a name that parses, `postgresType` is the
schema loop, over whatever schema list the request has. -/
theorem postgresType_lookup {σ : Type} (env : Env σ) (req : CodeGenRequest σ)
    (col : Column) (rel : Identifier) (hb : col.DataType ∉ builtinTypes)
    (hparse : parseIdentifierString col.DataType = .ok rel) (schemas : List Schema) :
    postgresType env (withSchemas req schemas) col
      = match scanSchemas env req (col.NotNull || col.IsArray) (lookupRel req rel) schemas with
        | some r => (r, [])
        | none =>
          ("interface{}",
            if env.debugActive then [unknownTypeLog col.DataType] else []) := by
  rw [postgresType_of_not_builtin env _ col hb, postgresTypeDefault_withSchemas]
  simp only [hparse, resolved_rel_eq]

/-- C16: first match wins in stored schema order. For a declared type outside
the built-in table that parses to name `N` and schema `S` (the default schema
when unset), on a catalog whose schema list is `s :: rest`: when `s` is not
named `pg_catalog`, is named `S` and holds an enum or composite type named `N`,
the result is the one `s` alone determines, the enum winning over a composite
type of the same name; otherwise it is the result on the schema list `rest`. -/
theorem postgresType_first_match {σ : Type} (env : Env σ) (req : CodeGenRequest σ)
    (col : Column) (rel : Identifier) (S N : String) (s : Schema) (rest : List Schema)
    (hb : col.DataType ∉ builtinTypes)
    (hparse : parseIdentifierString col.DataType = .ok rel)
    (hN : N = rel.Name) (hS : S = effectiveSchema req rel)
    (hschemas : req.Catalog.Schemas = s :: rest) :
    ((s.Name ≠ "pg_catalog" ∧ s.Name = S
        ∧ ((⟨N⟩ : Enum) ∈ s.Enums ∨ (⟨N⟩ : CompositeType) ∈ s.CompositeTypes)) →
      postgresType env req col = postgresType env (withSchemas req [s]) col
      ∧ ((⟨N⟩ : Enum) ∈ s.Enums →
          (postgresType env req col).1 = enumTypeName env req S N)
      ∧ ((⟨N⟩ : Enum) ∉ s.Enums →
          (postgresType env req col).1
            = if (col.NotNull || col.IsArray) then "string" else "sql.NullString"))
    ∧ (¬ (s.Name ≠ "pg_catalog" ∧ s.Name = S
        ∧ ((⟨N⟩ : Enum) ∈ s.Enums ∨ (⟨N⟩ : CompositeType) ∈ s.CompositeTypes)) →
      postgresType env req col = postgresType env (withSchemas req rest) col) := by
  have h0 : postgresType env req col
      = match scanSchemas env req (col.NotNull || col.IsArray) (lookupRel req rel)
          (s :: rest) with
        | some r => (r, [])
        | none =>
          ("interface{}",
            if env.debugActive then [unknownTypeLog col.DataType] else []) := by
    rw [← hschemas]
    exact postgresType_lookup env req col rel hb hparse req.Catalog.Schemas
  have hSch : (lookupRel req rel).Schema = S := by rw [hS]; rfl
  have hNam : (lookupRel req rel).Name = N := by rw [hN]; rfl
  constructor
  · intro ⟨hpg, hs, hm⟩
    obtain ⟨e1, e2, e3⟩ := scanSchemas_cons_match env req (col.NotNull || col.IsArray)
      (lookupRel req rel) s rest hpg (by rw [hSch]; exact hs) (by rw [hNam]; exact hm)
    refine ⟨?_, ?_, ?_⟩
    · rw [h0, e1, postgresType_lookup env req col rel hb hparse [s]]
    · intro he
      rw [h0, e2 (by rw [hNam]; exact he), hSch, hNam]
    · intro he
      rw [h0, e3 (by rw [hNam]; exact he)]
  · intro hno
    rw [h0, scanSchemas_cons_no_match env req (col.NotNull || col.IsArray)
      (lookupRel req rel) s rest (by rw [hSch, hNam]; exact hno),
      postgresType_lookup env req col rel hb hparse rest]

/-- C16, at concrete inputs: of two schemas named `billing`, the first with a
composite type `status` and the second with an enum `status`, the first
decides `billing.status`; and the schema `public` leaves `billing.status` to
the schemas after it. -/
theorem postgresType_first_match_witness :
    (postgresType (exampleEnv SQLDriverLibPQ) firstMatchReq
        ⟨"billing.status", false, false⟩).1 = "sql.NullString"
    ∧ postgresType (exampleEnv SQLDriverLibPQ) exampleReq ⟨"billing.status", false, false⟩
      = postgresType (exampleEnv SQLDriverLibPQ)
          (withSchemas exampleReq
            [{ Name := "billing", Enums := [⟨"status"⟩], CompositeTypes := [⟨"address"⟩] }])
          ⟨"billing.status", false, false⟩ :=
  ⟨((postgresType_first_match (exampleEnv SQLDriverLibPQ) firstMatchReq
      ⟨"billing.status", false, false⟩ { Schema := "billing", Name := "status" }
      "billing" "status" { Name := "billing", CompositeTypes := [⟨"status"⟩] }
      [{ Name := "billing", Enums := [⟨"status"⟩] }]
      (by decide) rfl rfl rfl rfl).1 (by decide)).2.2 (by decide),
   (postgresType_first_match (exampleEnv SQLDriverLibPQ) exampleReq
      ⟨"billing.status", false, false⟩ { Schema := "billing", Name := "status" }
      "billing" "status" { Name := "public", Enums := [⟨"status"⟩] }
      [{ Name := "billing", Enums := [⟨"status"⟩], CompositeTypes := [⟨"address"⟩] }]
      (by decide) rfl rfl rfl rfl).2 (by decide)⟩

/-! ## Explicit default-schema qualification -/

/-- A character list without the separator is one segment. -/
theorem splitAux_of_no_sep (sep : Char) (cur xs : List Char) (h : sep ∉ xs) :
    splitAux sep cur xs = [String.mk (cur.reverse ++ xs)] := by
  induction xs generalizing cur with
  | nil => simp [splitAux]
  | cons c cs ih =>
    have hc : c ≠ sep := fun e => h (by rw [e]; exact List.mem_cons_self _ _)
    have hcs : sep ∉ cs := fun e => h (List.mem_cons_of_mem _ e)
    unfold splitAux
    rw [if_neg hc, ih (c :: cur) hcs]
    simp

/-- The first segment ends at the first separator. -/
theorem splitAux_append_sep (sep : Char) (cur xs ys : List Char) (h : sep ∉ xs) :
    splitAux sep cur (xs ++ sep :: ys)
      = String.mk (cur.reverse ++ xs) :: splitAux sep [] ys := by
  induction xs generalizing cur with
  | nil => simp [splitAux]
  | cons c cs ih =>
    have hc : c ≠ sep := fun e => h (by rw [e]; exact List.mem_cons_self _ _)
    have hcs : sep ∉ cs := fun e => h (List.mem_cons_of_mem _ e)
    rw [List.cons_append, splitAux, if_neg hc, ih (c :: cur) hcs]
    simp

/-- A name without a dot parses to that name alone. -/
theorem parseIdentifierString_bare (N : String) (hN : '.' ∉ N.data) :
    parseIdentifierString N = .ok { Catalog := "", Schema := "", Name := N } := by
  have hsplit : stringsSplit N '.' = [N] := by
    unfold stringsSplit
    rw [splitAux_of_no_sep '.' [] N.data hN]
    rfl
  simp [parseIdentifierString, hsplit]

/-- Two dot-free names joined by a dot parse to schema and name. -/
theorem parseIdentifierString_qualified (D N : String) (hD : '.' ∉ D.data)
    (hN : '.' ∉ N.data) :
    parseIdentifierString (D ++ "." ++ N) = .ok { Catalog := "", Schema := D, Name := N } := by
  have hdata : (D ++ "." ++ N).data = D.data ++ '.' :: N.data := by
    simp [String.data_append]
  have hsplit : stringsSplit (D ++ "." ++ N) '.' = [D, N] := by
    unfold stringsSplit
    rw [hdata, splitAux_append_sep '.' [] D.data N.data hD,
      splitAux_of_no_sep '.' [] N.data hN]
    rfl
  simp [parseIdentifierString, hsplit]

/-- C20: explicit default-schema qualification is redundant. When the default
schema name `D` and the name `N` contain no dot and neither `N` nor `D.N` is in
the built-in table, `postgresType` returns the same identifier on the declared
type `D.N` as on the bare `N`, for every driver profile and nullability. -/
theorem postgresType_default_schema_qualified {σ : Type} (env : Env σ)
    (req : CodeGenRequest σ) (N : String) (notNull isArray : Bool)
    (hD : '.' ∉ req.Catalog.DefaultSchema.data) (hN : '.' ∉ N.data)
    (hb : N ∉ builtinTypes) (hbq : req.Catalog.DefaultSchema ++ "." ++ N ∉ builtinTypes) :
    (postgresType env req ⟨req.Catalog.DefaultSchema ++ "." ++ N, notNull, isArray⟩).1
      = (postgresType env req ⟨N, notNull, isArray⟩).1 := by
  have e1 := postgresType_lookup env req ⟨N, notNull, isArray⟩ _ hb
    (parseIdentifierString_bare N hN) req.Catalog.Schemas
  have e2 := postgresType_lookup env req
    ⟨req.Catalog.DefaultSchema ++ "." ++ N, notNull, isArray⟩ _ hbq
    (parseIdentifierString_qualified req.Catalog.DefaultSchema N hD hN) req.Catalog.Schemas
  have hrel : lookupRel req { Catalog := "", Schema := req.Catalog.DefaultSchema, Name := N }
      = lookupRel req { Catalog := "", Schema := "", Name := N } := by
    unfold lookupRel effectiveSchema
    by_cases hd : req.Catalog.DefaultSchema = "" <;> simp [hd]
  change postgresType env req _ = _ at e1
  change postgresType env req _ = _ at e2
  rw [e1, e2, hrel]
  cases scanSchemas env req (notNull || isArray)
    (lookupRel req { Catalog := "", Schema := "", Name := N }) req.Catalog.Schemas <;> rfl

/-- C20, at concrete inputs: with default schema `public`, `public.status` and
`status` resolve alike. -/
theorem postgresType_default_schema_qualified_witness :
    (postgresType (exampleEnv SQLDriverLibPQ) exampleReq
        ⟨"public" ++ "." ++ "status", false, false⟩).1
      = (postgresType (exampleEnv SQLDriverLibPQ) exampleReq ⟨"status", false, false⟩).1 :=
  postgresType_default_schema_qualified (exampleEnv SQLDriverLibPQ) exampleReq "status"
    false false (by decide) (by decide) (by decide) (by decide)

/-! ## AST node boxing -/

/-- C18: `poet.Node` applied to a `*ast.Class`, `*ast.NullableType` or
`*ast.UserType` value returns the envelope tagged `Node_Class`,
`Node_NullableType` or `Node_UserType` whose payload is the input, so that it
is injective where it returns; applied to any other value it returns no
envelope and panics with that value. -/
theorem Node_boxing {C N U O : Type} :
    (∀ n : C, poet.Node (O := O) (.Class n)
        = .ok ({ Node := .Node_Class n } : ast.Node C N U))
    ∧ (∀ n : N, poet.Node (O := O) (.NullableType n)
        = .ok ({ Node := .Node_NullableType n } : ast.Node C N U))
    ∧ (∀ n : U, poet.Node (O := O) (.UserType n)
        = .ok ({ Node := .Node_UserType n } : ast.Node C N U))
    ∧ (∀ n : O, poet.Node (.other n) = .error (.other n : poet.proto C N U O))
    ∧ (∀ (n : O) (e : ast.Node C N U),
        poet.Node (.other n : poet.proto C N U O) ≠ .ok e)
    ∧ (∀ (a b : poet.proto C N U O) (e : ast.Node C N U),
        poet.Node a = .ok e → poet.Node b = .ok e → a = b) := by
  refine ⟨fun _ => rfl, fun _ => rfl, fun _ => rfl, fun _ => rfl, ?_, ?_⟩
  · intro n e h
    cases h
  · intro a b e ha hb
    cases a <;> cases b <;> simp [poet.Node] at ha hb <;> subst ha <;>
      first
        | (injection hb with hb; injection hb with hb; rw [hb])
        | (injection hb with hb; cases hb)

/-- C18, at concrete inputs: over natural numbers as payloads, a class value
is boxed under the tag `Node_Class`, another value panics, and two values
boxed to the same envelope are the same. -/
theorem Node_boxing_witness :
    poet.Node (.Class 1 : poet.proto Nat Nat Nat Nat) = .ok { Node := .Node_Class 1 }
    ∧ poet.Node (.other 7 : poet.proto Nat Nat Nat Nat) = .error (.other 7)
    ∧ (poet.proto.UserType 3 : poet.proto Nat Nat Nat Nat) = poet.proto.UserType 3 :=
  ⟨(Node_boxing (C := Nat) (N := Nat) (U := Nat) (O := Nat)).1 1,
   (Node_boxing (C := Nat) (N := Nat) (U := Nat) (O := Nat)).2.2.2.1 7,
   (Node_boxing (C := Nat) (N := Nat) (U := Nat) (O := Nat)).2.2.2.2.2
     (.UserType 3) (.UserType 3) { Node := .Node_UserType 3 } rfl rfl⟩

/-! ## Unrecognized driver profiles -/

/-- The enum loop reads the settings only through the struct namer. -/
theorem scanEnums_congr_names {σ : Type} (env : Env σ) (req req' : CodeGenRequest σ)
    (rel : Identifier) (schema : Schema) (enums : List Enum)
    (hname : ∀ n, env.StructName n req'.Settings = env.StructName n req.Settings)
    (hdef : req'.Catalog.DefaultSchema = req.Catalog.DefaultSchema) :
    scanEnums env req' rel schema enums = scanEnums env req rel schema enums := by
  induction enums with
  | nil => rfl
  | cons e rest ih => simp [scanEnums, hname, hdef, ih]

/-- The schema loop reads the settings only through the struct namer. -/
theorem scanSchemas_congr_names {σ : Type} (env : Env σ) (req req' : CodeGenRequest σ)
    (notNull : Bool) (rel : Identifier) (schemas : List Schema)
    (hname : ∀ n, env.StructName n req'.Settings = env.StructName n req.Settings)
    (hdef : req'.Catalog.DefaultSchema = req.Catalog.DefaultSchema) :
    scanSchemas env req' notNull rel schemas = scanSchemas env req notNull rel schemas := by
  induction schemas with
  | nil => rfl
  | cons t rest ih =>
    simp [scanSchemas, scanEnums_congr_names env req req' rel t t.Enums hname hdef, ih]

/-- The catalog fallback reads the settings only through the struct namer. -/
theorem postgresTypeDefault_congr_names {σ : Type} (env : Env σ)
    (req req' : CodeGenRequest σ) (columnType : String) (notNull : Bool)
    (hname : ∀ n, env.StructName n req'.Settings = env.StructName n req.Settings)
    (hcat : req'.Catalog = req.Catalog) :
    postgresTypeDefault env req' columnType notNull
      = postgresTypeDefault env req columnType notNull := by
  unfold postgresTypeDefault
  cases parseIdentifierString columnType with
  | error e => rfl
  | ok rel0 =>
    simp only [hcat]
    rw [scanSchemas_congr_names env req req' notNull _ _ hname (by rw [hcat])]

/-- C17: an unrecognized driver profile is treated as the standard profile.
With the driver read by `parseDriver`, settings whose profile selector is
neither `pgx/v4` nor `lib/pq` select the driver `lib/pq`, and `postgresType`
returns on them, for every declared type, catalog and nullability, what it
returns on settings that select `lib/pq` and are named alike by
`StructName`. -/
theorem postgresType_unrecognized_profile {σ : Type} (selector : σ → String)
    (structName : String → σ → String) (debugActive : Bool) (catalog : Catalog)
    (settings standard : σ) (col : Column)
    (hpgx : selector settings ≠ SQLDriverPGXV4) (_hpq : selector settings ≠ SQLDriverLibPQ)
    (hstd : selector standard = SQLDriverLibPQ)
    (hname : ∀ n, structName n settings = structName n standard) :
    parseDriver (selector settings) = SQLDriverLibPQ
    ∧ postgresType (profileEnv selector structName debugActive) ⟨settings, catalog⟩ col
      = postgresType (profileEnv selector structName debugActive) ⟨standard, catalog⟩ col := by
  have hd1 : parseDriver (selector settings) = SQLDriverLibPQ := by
    unfold parseDriver
    rw [if_neg hpgx]
  have hd2 : parseDriver (selector standard) = SQLDriverLibPQ := by
    rw [hstd]
    decide
  refine ⟨hd1, ?_⟩
  by_cases hb : col.DataType ∈ builtinTypes
  · exact postgresType_of_builtin (profileEnv selector structName debugActive)
      ⟨standard, catalog⟩ (profileEnv selector structName debugActive)
      ⟨settings, catalog⟩ col hb (by show parseDriver _ = parseDriver _; rw [hd1, hd2])
  · rw [postgresType_of_not_builtin _ _ col hb, postgresType_of_not_builtin _ _ col hb]
    exact postgresTypeDefault_congr_names (profileEnv selector structName debugActive)
      ⟨standard, catalog⟩ ⟨settings, catalog⟩ col.DataType (col.NotNull || col.IsArray)
      hname rfl

/-- C17, at concrete inputs: with the selector as the whole settings, the
unrecognized selector `mysql` resolves a not-null `json` column and a nullable
`inet` column as the selector `lib/pq` does, to `json.RawMessage` and
`pqtype.Inet`. -/
theorem postgresType_unrecognized_profile_witness :
    (postgresType (profileEnv id (fun n _ => n) false) ⟨"mysql", exampleReq.Catalog⟩
        ⟨"json", true, false⟩
      = postgresType (profileEnv id (fun n _ => n) false) ⟨"lib/pq", exampleReq.Catalog⟩
        ⟨"json", true, false⟩
      ∧ (postgresType (profileEnv id (fun n _ => n) false) ⟨"mysql", exampleReq.Catalog⟩
        ⟨"json", true, false⟩).1 = "json.RawMessage")
    ∧ (postgresType (profileEnv id (fun n _ => n) false) ⟨"mysql", exampleReq.Catalog⟩
        ⟨"inet", false, false⟩
      = postgresType (profileEnv id (fun n _ => n) false) ⟨"lib/pq", exampleReq.Catalog⟩
        ⟨"inet", false, false⟩
      ∧ (postgresType (profileEnv id (fun n _ => n) false) ⟨"mysql", exampleReq.Catalog⟩
        ⟨"inet", false, false⟩).1 = "pqtype.Inet") :=
  ⟨⟨(postgresType_unrecognized_profile id (fun n _ => n) false exampleReq.Catalog
      "mysql" "lib/pq" ⟨"json", true, false⟩ (by decide) (by decide) rfl (fun _ => rfl)).2,
    by decide⟩,
   ⟨(postgresType_unrecognized_profile id (fun n _ => n) false exampleReq.Catalog
      "mysql" "lib/pq" ⟨"inet", false, false⟩ (by decide) (by decide) rfl (fun _ => rfl)).2,
    by decide⟩⟩

end Sqlc
